import Mathlib

/-!
Verification of the clean-room orchestrator client (two generations:
`src/databricks_clean_room_orchestrator/client.py`, called generation 2 below,
and the notebook source `Clean Room Orchestrator Job Step 2.py`, generation 1).

The Python code is shallowly embedded: every platform (HTTP) interaction is
recorded as an `Event`, responses of the external platform are supplied by a
`Script`, and each embedded operation returns the pair of its Python outcome
(`Except PyErr result`, where `PyErr` covers the Python exceptions the code can
raise) and the list of platform calls it issued, in order.
-/

/-- Python exceptions that the embedded code can raise.  `scriptExhausted`
marks the point where one of the two unbounded polling loops would keep
polling beyond the finite scripted responses. -/
inductive PyErr where
  | runtimeError (msg : String)
  | httpError (msg : String)
  | attributeError (msg : String)
  | typeError (msg : String)
  | valueError (msg : String)
  | scriptExhausted
deriving DecidableEq, Repr

/-- The generation-2 `Resource` enum of `client.py` (names and `.value`
numbers as in the source). -/
inductive Resource where
  | NOTEBOOK_SERVICE_PRINCIPAL
  | COLLABORATOR_SHARES
  | WORKSPACE
  | METASTORE
  | NOTEBOOK
deriving DecidableEq, Repr

/-- Python `Resource.name` (the name of the enum member). -/
def Resource.name : Resource → String
  | .NOTEBOOK_SERVICE_PRINCIPAL => "NOTEBOOK_SERVICE_PRINCIPAL"
  | .COLLABORATOR_SHARES => "COLLABORATOR_SHARES"
  | .WORKSPACE => "WORKSPACE"
  | .METASTORE => "METASTORE"
  | .NOTEBOOK => "NOTEBOOK"

/-- The generation-1 `TeardownResource` enum (no `NOTEBOOK` member). -/
inductive TeardownResource where
  | NOTEBOOK_SERVICE_PRINCIPAL
  | COLLABORATOR_SHARES
  | WORKSPACE
  | METASTORE
deriving DecidableEq, Repr

/-- Python `TeardownResource.value` as assigned in the source. -/
def TeardownResource.value : TeardownResource → Int
  | .NOTEBOOK_SERVICE_PRINCIPAL => 1
  | .COLLABORATOR_SHARES => 2
  | .WORKSPACE => 3
  | .METASTORE => 4

/-- JSON values, as produced by `json.loads` and sent as request bodies.
Keys of objects are strings, as `json.loads` guarantees. -/
inductive Json where
  | jnull
  | jbool (b : Bool)
  | jnum (n : Int)
  | jstr (s : String)
  | jarr (xs : List Json)
  | jobj (kvs : List (String × Json))

/-- The `state` record of a notebook-run-state response:
`{"state": {"life_cycle_state": ..., "result_state": ...}}`. -/
structure RunState where
  life_cycle_state : String
  result_state : String
deriving DecidableEq, Repr

/- ### Byte-level string containment (used to state "the message carries X") -/

/-- Whether `needle` is a prefix of `hay` (on character lists). -/
def isPrefixOfB : List Char → List Char → Bool
  | [], _ => true
  | _ :: _, [] => false
  | a :: as, b :: bs => a = b && isPrefixOfB as bs

/-- Whether `needle` occurs as a contiguous substring of `hay` (on character lists). -/
def containsSub (needle : List Char) : List Char → Bool
  | [] => isPrefixOfB needle []
  | c :: t => isPrefixOfB needle (c :: t) || containsSub needle t

/-- Whether `needle` occurs as a contiguous substring of `hay`. -/
def strContainsB (hay needle : String) : Bool :=
  containsSub needle.data hay.data

theorem isPrefixOfB_append_self (n rest : List Char) :
    isPrefixOfB n (n ++ rest) = true := by
  induction n with
  | nil => rfl
  | cons a as ih => simp [isPrefixOfB, ih]

theorem containsSub_append (a n b : List Char) :
    containsSub n (a ++ n ++ b) = true := by
  induction a with
  | nil =>
    cases n with
    | nil => cases b <;> simp [containsSub, isPrefixOfB]
    | cons c cs =>
      simp only [List.nil_append, List.cons_append, containsSub]
      have : isPrefixOfB (c :: cs) ((c :: cs) ++ b) = true :=
        isPrefixOfB_append_self _ _
      simp only [List.cons_append] at this
      simp [this]
  | cons x xs ih =>
    simp only [List.cons_append]
    rw [show containsSub n (x :: (xs ++ n ++ b)) =
        (isPrefixOfB n (x :: (xs ++ n ++ b)) || containsSub n (xs ++ n ++ b)) from rfl,
      ih, Bool.or_true]

theorem string_data_append (s t : String) : (s ++ t).data = s.data ++ t.data := by
  cases s; cases t; rfl

theorem strContainsB_parts (a n b : String) :
    strContainsB (a ++ n ++ b) n = true := by
  unfold strContainsB
  rw [string_data_append, string_data_append]
  exact containsSub_append a.data n.data b.data

theorem strContainsB_right (a n : String) :
    strContainsB (a ++ n) n = true := by
  unfold strContainsB
  rw [string_data_append]
  have := containsSub_append a.data n.data []
  simpa using this

theorem strContainsB_left (n b : String) :
    strContainsB (n ++ b) n = true := by
  unfold strContainsB
  rw [string_data_append]
  have := containsSub_append [] n.data b.data
  simpa using this

/- ### The two polling loops (shared by both generations)

`prepareAndRunNotebook` contains two `while True` loops.  They are modelled
over the finite list of responses the scripted platform returns, counting the
number of status calls the loop makes.  Running off the end of the script
(`exhausted`) corresponds to the loop polling forever. -/

/-- Outcome of the workspace poll loop. -/
inductive PollOut where
  | success (ncalls : Nat)
  | failure (ncalls : Nat)
  | exhausted
deriving DecidableEq, Repr

/-- The workspace poll loop: per iteration it fetches a status;
`"RUNNING"` breaks out, any status other than `"PROVISIONING"` raises
`RuntimeError("Workspace could not be provisioned")`, `"PROVISIONING"`
sleeps and retries. -/
def pollWorkspace : List String → PollOut
  | [] => .exhausted
  | st :: rest =>
    if st = "RUNNING" then .success 1
    else if st ≠ "PROVISIONING" then .failure 1
    else
      match pollWorkspace rest with
      | .success n => .success (n + 1)
      | .failure n => .failure (n + 1)
      | .exhausted => .exhausted

/-- Outcome of the notebook-run poll loop (on success it keeps the
terminal `state` record, as the code does). -/
inductive RunPollOut where
  | success (ncalls : Nat) (st : RunState)
  | failure (ncalls : Nat)
  | exhausted
deriving DecidableEq, Repr

/-- The run poll loop: `life_cycle_state = "TERMINATED"` breaks out keeping
the state, a state in `["SKIPPED", "INTERNAL_ERROR"]` raises
`RuntimeError("Notebook could not be run")`, anything else sleeps and
retries. -/
def pollRun : List RunState → RunPollOut
  | [] => .exhausted
  | st :: rest =>
    if st.life_cycle_state = "TERMINATED" then .success 1 st
    else if st.life_cycle_state = "SKIPPED" ∨ st.life_cycle_state = "INTERNAL_ERROR" then
      .failure 1
    else
      match pollRun rest with
      | .success n s => .success (n + 1) s
      | .failure n => .failure (n + 1)
      | .exhausted => .exhausted

theorem pollWorkspace_success_pos {ss : List String} {n : Nat}
    (h : pollWorkspace ss = .success n) : 1 ≤ n := by
  induction ss generalizing n with
  | nil => simp [pollWorkspace] at h
  | cons st rest ih =>
    by_cases h1 : st = "RUNNING"
    · simp [pollWorkspace, h1] at h
      omega
    · by_cases h2 : st = "PROVISIONING"
      · simp [pollWorkspace, h1, h2] at h
        rcases hm : pollWorkspace rest with n' | n' | _ <;> rw [hm] at h <;> simp at h
        omega
      · simp [pollWorkspace, h1, h2] at h

theorem pollRun_success_pos {rs : List RunState} {n : Nat} {st : RunState}
    (h : pollRun rs = .success n st) : 1 ≤ n := by
  induction rs generalizing n st with
  | nil => simp [pollRun] at h
  | cons r rest ih =>
    by_cases h1 : r.life_cycle_state = "TERMINATED"
    · simp [pollRun, h1] at h
      omega
    · by_cases h2 : r.life_cycle_state = "SKIPPED" ∨ r.life_cycle_state = "INTERNAL_ERROR"
      · simp [pollRun, h1, h2] at h
      · simp [pollRun, h1, h2] at h
        cases hm : pollRun rest with
        | success n' st' =>
          rw [hm] at h
          simp at h
          omega
        | failure n' =>
          rw [hm] at h
          simp at h
        | exhausted =>
          rw [hm] at h
          simp at h

/- ### Characterization of the workspace poll loop (claim C2) -/

theorem pollWorkspace_success_iff (ss : List String) :
    (∃ n, pollWorkspace ss = .success n) ↔
      ∃ i : Nat, ss[i]? = some "RUNNING" ∧
        ∀ (j : Nat) (w : String), j < i → ss[j]? = some w →
          w = "PROVISIONING" ∨ w = "RUNNING" := by
  induction ss with
  | nil => simp [pollWorkspace]
  | cons st rest ih =>
    by_cases h1 : st = "RUNNING"
    · subst h1
      constructor
      · intro _
        exact ⟨0, by simp, fun j w hj _ => by omega⟩
      · intro _
        exact ⟨1, by simp [pollWorkspace]⟩
    · by_cases h2 : st = "PROVISIONING"
      · subst h2
        have hL : (∃ n, pollWorkspace ("PROVISIONING" :: rest) = .success n) ↔
            (∃ n, pollWorkspace rest = .success n) := by
          cases hm : pollWorkspace rest with
          | success n => simp [pollWorkspace, hm]
          | failure n => simp [pollWorkspace, hm]
          | exhausted => simp [pollWorkspace, hm]
        have hR : (∃ i : Nat, ("PROVISIONING" :: rest)[i]? = some "RUNNING" ∧
              ∀ (j : Nat) (w : String), j < i → ("PROVISIONING" :: rest)[j]? = some w →
                w = "PROVISIONING" ∨ w = "RUNNING") ↔
            (∃ i : Nat, rest[i]? = some "RUNNING" ∧
              ∀ (j : Nat) (w : String), j < i → rest[j]? = some w →
                w = "PROVISIONING" ∨ w = "RUNNING") := by
          constructor
          · rintro ⟨i, hi, hj⟩
            cases i with
            | zero => simp at hi
            | succ i' =>
              refine ⟨i', by simpa using hi, ?_⟩
              intro j w hji hw
              exact hj (j + 1) w (by omega) (by simpa using hw)
          · rintro ⟨i, hi, hj⟩
            refine ⟨i + 1, by simpa using hi, ?_⟩
            intro j w hji hw
            cases j with
            | zero =>
              left
              simp at hw
              exact hw.symm
            | succ j' => exact hj j' w (by omega) (by simpa using hw)
        exact hL.trans (ih.trans hR.symm)
      · constructor
        · rintro ⟨n, hn⟩
          simp [pollWorkspace, h1, h2] at hn
        · rintro ⟨i, hi, hj⟩
          exfalso
          cases i with
          | zero =>
            simp at hi
            exact h1 hi
          | succ i' =>
            have := hj 0 st (by omega) (by simp)
            rcases this with h | h
            · exact h2 h
            · exact h1 h

theorem pollWorkspace_failure_at (pre : List String) (v : String) (rest : List String)
    (hpre : ∀ w ∈ pre, w = "PROVISIONING") (h1 : v ≠ "RUNNING") (h2 : v ≠ "PROVISIONING") :
    pollWorkspace (pre ++ v :: rest) = .failure (pre.length + 1) := by
  induction pre with
  | nil => simp [pollWorkspace, h1, h2]
  | cons p ps ih =>
    have hp : p = "PROVISIONING" := hpre p (by simp)
    have hps : ∀ w ∈ ps, w = "PROVISIONING" := fun w hw => hpre w (by simp [hw])
    subst hp
    have hih := ih hps
    show pollWorkspace ("PROVISIONING" :: (ps ++ v :: rest)) =
      PollOut.failure (("PROVISIONING" :: ps).length + 1)
    rw [show pollWorkspace ("PROVISIONING" :: (ps ++ v :: rest)) =
        (match pollWorkspace (ps ++ v :: rest) with
         | PollOut.success n => PollOut.success (n + 1)
         | PollOut.failure n => PollOut.failure (n + 1)
         | PollOut.exhausted => PollOut.exhausted) from rfl, hih]
    simp

theorem pollWorkspace_success_at (pre : List String) (rest : List String)
    (hpre : ∀ w ∈ pre, w = "PROVISIONING") :
    pollWorkspace (pre ++ "RUNNING" :: rest) = .success (pre.length + 1) := by
  induction pre with
  | nil => simp [pollWorkspace]
  | cons p ps ih =>
    have hp : p = "PROVISIONING" := hpre p (by simp)
    have hps : ∀ w ∈ ps, w = "PROVISIONING" := fun w hw => hpre w (by simp [hw])
    subst hp
    have hih := ih hps
    show pollWorkspace ("PROVISIONING" :: (ps ++ "RUNNING" :: rest)) =
      PollOut.success (("PROVISIONING" :: ps).length + 1)
    rw [show pollWorkspace ("PROVISIONING" :: (ps ++ "RUNNING" :: rest)) =
        (match pollWorkspace (ps ++ "RUNNING" :: rest) with
         | PollOut.success n => PollOut.success (n + 1)
         | PollOut.failure n => PollOut.failure (n + 1)
         | PollOut.exhausted => PollOut.exhausted) from rfl, hih]
    simp

/-- C2: the workspace poll loop exits successfully iff the scripted status
sequence eventually yields `"RUNNING"` without first yielding any value other
than `"PROVISIONING"`/`"RUNNING"`; on the first offending value (after a
prefix of `"PROVISIONING"` responses) it fails having made exactly one more
status call than the prefix length (no further calls); on `"PROVISIONING"` it
keeps polling, reaching `"RUNNING"` after exactly the prefix length plus one
calls. -/
theorem C2_workspace_poll :
    (∀ ss : List String,
      (∃ n, pollWorkspace ss = .success n) ↔
        ∃ i : Nat, ss[i]? = some "RUNNING" ∧
          ∀ (j : Nat) (w : String), j < i → ss[j]? = some w →
            w = "PROVISIONING" ∨ w = "RUNNING") ∧
    (∀ (pre : List String) (v : String) (rest : List String),
      (∀ w ∈ pre, w = "PROVISIONING") → v ≠ "RUNNING" → v ≠ "PROVISIONING" →
        pollWorkspace (pre ++ v :: rest) = .failure (pre.length + 1)) ∧
    (∀ (pre rest : List String),
      (∀ w ∈ pre, w = "PROVISIONING") →
        pollWorkspace (pre ++ "RUNNING" :: rest) = .success (pre.length + 1)) :=
  ⟨pollWorkspace_success_iff, pollWorkspace_failure_at, pollWorkspace_success_at⟩

/-- Witness for C2 at concrete inputs: a `"FAILED"` status after one
`"PROVISIONING"` makes the loop fail after exactly 2 calls, and
`"PROVISIONING", "PROVISIONING", "RUNNING"` succeeds after exactly 3. -/
theorem C2_witness :
    pollWorkspace ["PROVISIONING", "FAILED", "RUNNING"] = .failure 2 ∧
    pollWorkspace ["PROVISIONING", "PROVISIONING", "RUNNING"] = .success 3 := by
  constructor
  · have h := C2_workspace_poll.2.1 ["PROVISIONING"] "FAILED" ["RUNNING"]
      (by intro w hw; simpa using hw) (by decide) (by decide)
    simpa using h
  · have h := C2_workspace_poll.2.2 ["PROVISIONING", "PROVISIONING"] ["RUNNING"]
      (by intro w hw; simpa using hw)
    simpa using h

/- ### Characterization of the notebook-run poll loop (claim C3) -/

theorem pollRun_success_iff (rs : List RunState) :
    (∃ n st, pollRun rs = .success n st) ↔
      ∃ (i : Nat) (st : RunState), rs[i]? = some st ∧
        st.life_cycle_state = "TERMINATED" ∧
        ∀ (j : Nat) (w : RunState), j < i → rs[j]? = some w →
          w.life_cycle_state ≠ "SKIPPED" ∧ w.life_cycle_state ≠ "INTERNAL_ERROR" := by
  induction rs with
  | nil => simp [pollRun]
  | cons r rest ih =>
    by_cases h1 : r.life_cycle_state = "TERMINATED"
    · constructor
      · intro _
        exact ⟨0, r, by simp, h1, fun j w hj _ => by omega⟩
      · intro _
        exact ⟨1, r, by simp [pollRun, h1]⟩
    · by_cases h2 : r.life_cycle_state = "SKIPPED" ∨ r.life_cycle_state = "INTERNAL_ERROR"
      · constructor
        · rintro ⟨n, st, hn⟩
          simp [pollRun, h1, h2] at hn
        · rintro ⟨i, st, hi, hterm, hj⟩
          exfalso
          cases i with
          | zero =>
            simp at hi
            subst hi
            exact h1 hterm
          | succ i' =>
            have := hj 0 r (by omega) (by simp)
            rcases h2 with h2 | h2
            · exact this.1 h2
            · exact this.2 h2
      · have hL : (∃ n st, pollRun (r :: rest) = .success n st) ↔
            (∃ n st, pollRun rest = .success n st) := by
          cases hm : pollRun rest with
          | success n s => simp [pollRun, h1, h2, hm]
          | failure n => simp [pollRun, h1, h2, hm]
          | exhausted => simp [pollRun, h1, h2, hm]
        have hR : (∃ (i : Nat) (st : RunState), (r :: rest)[i]? = some st ∧
              st.life_cycle_state = "TERMINATED" ∧
              ∀ (j : Nat) (w : RunState), j < i → (r :: rest)[j]? = some w →
                w.life_cycle_state ≠ "SKIPPED" ∧ w.life_cycle_state ≠ "INTERNAL_ERROR") ↔
            (∃ (i : Nat) (st : RunState), rest[i]? = some st ∧
              st.life_cycle_state = "TERMINATED" ∧
              ∀ (j : Nat) (w : RunState), j < i → rest[j]? = some w →
                w.life_cycle_state ≠ "SKIPPED" ∧ w.life_cycle_state ≠ "INTERNAL_ERROR") := by
          constructor
          · rintro ⟨i, st, hi, hterm, hj⟩
            cases i with
            | zero =>
              simp at hi
              subst hi
              exact absurd hterm h1
            | succ i' =>
              refine ⟨i', st, by simpa using hi, hterm, ?_⟩
              intro j w hji hw
              exact hj (j + 1) w (by omega) (by simpa using hw)
          · rintro ⟨i, st, hi, hterm, hj⟩
            refine ⟨i + 1, st, by simpa using hi, hterm, ?_⟩
            intro j w hji hw
            cases j with
            | zero =>
              simp at hw
              subst hw
              constructor
              · intro hc
                exact h2 (Or.inl hc)
              · intro hc
                exact h2 (Or.inr hc)
            | succ j' => exact hj j' w (by omega) (by simpa using hw)
        exact hL.trans (ih.trans hR.symm)

theorem pollRun_failure_at (pre : List RunState) (v : RunState) (rest : List RunState)
    (hpre : ∀ w ∈ pre, w.life_cycle_state ≠ "TERMINATED" ∧
      w.life_cycle_state ≠ "SKIPPED" ∧ w.life_cycle_state ≠ "INTERNAL_ERROR")
    (hv : v.life_cycle_state = "SKIPPED" ∨ v.life_cycle_state = "INTERNAL_ERROR") :
    pollRun (pre ++ v :: rest) = .failure (pre.length + 1) := by
  have hT : v.life_cycle_state ≠ "TERMINATED" := by
    rcases hv with h | h <;> rw [h] <;> decide
  induction pre with
  | nil => simp [pollRun, hT, hv]
  | cons p ps ih =>
    have hp := hpre p (by simp)
    have hps : ∀ w ∈ ps, w.life_cycle_state ≠ "TERMINATED" ∧
        w.life_cycle_state ≠ "SKIPPED" ∧ w.life_cycle_state ≠ "INTERNAL_ERROR" :=
      fun w hw => hpre w (by simp [hw])
    have hih := ih hps
    show pollRun (p :: (ps ++ v :: rest)) = RunPollOut.failure ((p :: ps).length + 1)
    simp [pollRun, hp.1, hp.2.1, hp.2.2, hih]

theorem pollRun_terminated_at (pre : List RunState) (v : RunState) (rest : List RunState)
    (hpre : ∀ w ∈ pre, w.life_cycle_state ≠ "TERMINATED" ∧
      w.life_cycle_state ≠ "SKIPPED" ∧ w.life_cycle_state ≠ "INTERNAL_ERROR")
    (hv : v.life_cycle_state = "TERMINATED") :
    pollRun (pre ++ v :: rest) = .success (pre.length + 1) v := by
  induction pre with
  | nil => simp [pollRun, hv]
  | cons p ps ih =>
    have hp := hpre p (by simp)
    have hps : ∀ w ∈ ps, w.life_cycle_state ≠ "TERMINATED" ∧
        w.life_cycle_state ≠ "SKIPPED" ∧ w.life_cycle_state ≠ "INTERNAL_ERROR" :=
      fun w hw => hpre w (by simp [hw])
    have hih := ih hps
    show pollRun (p :: (ps ++ v :: rest)) = RunPollOut.success ((p :: ps).length + 1) v
    simp [pollRun, hp.1, hp.2.1, hp.2.2, hih]

/-- C3: the run poll loop exits successfully iff the scripted sequence of
`state` records reaches one with `life_cycle_state = "TERMINATED"` before any
`"SKIPPED"`/`"INTERNAL_ERROR"` record; it fails right at the first
`"SKIPPED"`/`"INTERNAL_ERROR"` record (one more call than the preceding
in-progress records, none after); and it keeps polling through every other
`life_cycle_state` value, succeeding at a `"TERMINATED"` record after exactly
the number of preceding in-progress records plus one calls. -/
theorem C3_run_poll :
    (∀ rs : List RunState,
      (∃ n st, pollRun rs = .success n st) ↔
        ∃ (i : Nat) (st : RunState), rs[i]? = some st ∧
          st.life_cycle_state = "TERMINATED" ∧
          ∀ (j : Nat) (w : RunState), j < i → rs[j]? = some w →
            w.life_cycle_state ≠ "SKIPPED" ∧ w.life_cycle_state ≠ "INTERNAL_ERROR") ∧
    (∀ (pre : List RunState) (v : RunState) (rest : List RunState),
      (∀ w ∈ pre, w.life_cycle_state ≠ "TERMINATED" ∧
        w.life_cycle_state ≠ "SKIPPED" ∧ w.life_cycle_state ≠ "INTERNAL_ERROR") →
      v.life_cycle_state = "SKIPPED" ∨ v.life_cycle_state = "INTERNAL_ERROR" →
        pollRun (pre ++ v :: rest) = .failure (pre.length + 1)) ∧
    (∀ (pre : List RunState) (v : RunState) (rest : List RunState),
      (∀ w ∈ pre, w.life_cycle_state ≠ "TERMINATED" ∧
        w.life_cycle_state ≠ "SKIPPED" ∧ w.life_cycle_state ≠ "INTERNAL_ERROR") →
      v.life_cycle_state = "TERMINATED" →
        pollRun (pre ++ v :: rest) = .success (pre.length + 1) v) :=
  ⟨pollRun_success_iff, pollRun_failure_at, pollRun_terminated_at⟩

/-- Witness for C3 at concrete inputs: a `"SKIPPED"` record after one
`"PENDING"` record fails after exactly 2 calls; a `"TERMINATED"` record after
one `"RUNNING"` record succeeds after exactly 2 calls keeping the terminal
state. -/
theorem C3_witness :
    pollRun [⟨"PENDING", ""⟩, ⟨"SKIPPED", ""⟩] = .failure 2 ∧
    pollRun [⟨"RUNNING", ""⟩, ⟨"TERMINATED", "SUCCESS"⟩] =
      .success 2 ⟨"TERMINATED", "SUCCESS"⟩ := by
  constructor
  · have h := C3_run_poll.2.1 [⟨"PENDING", ""⟩] ⟨"SKIPPED", ""⟩ []
      (by intro w hw; simp at hw; subst hw; exact ⟨by decide, by decide, by decide⟩)
      (Or.inl (by decide))
    simpa using h
  · have h := C3_run_poll.2.2 [⟨"RUNNING", ""⟩] ⟨"TERMINATED", "SUCCESS"⟩ []
      (by intro w hw; simp at hw; subst hw; exact ⟨by decide, by decide, by decide⟩)
      (by decide)
    simpa using h

/- ### HTTP error translation (`_check_results`, claim C6)

`requests.Response.raise_for_status` raises `HTTPError` exactly when the
status code is in 400..599 (client or server error); statuses 1xx/2xx/3xx do
not raise.  The error message is
`"<status> Client Error: <reason> for url: <url>"` (or `Server Error`). -/

/-- Model of `requests.Response.raise_for_status` for a response with the
given status code, reason phrase and URL. -/
def raise_for_status (status : Nat) (reason url : String) : Except PyErr Unit :=
  if 400 ≤ status ∧ status < 500 then
    .error (.httpError
      (toString status ++ " Client Error: " ++ reason ++ " for url: " ++ url))
  else if 500 ≤ status ∧ status < 600 then
    .error (.httpError
      (toString status ++ " Server Error: " ++ reason ++ " for url: " ++ url))
  else .ok ()

namespace Gen2

/-- Generation 2 `CleanRoomRestClient._check_results`: on an `HTTPError` from
`raise_for_status`, if the response body is non-empty, re-raise an
`HTTPError` with message `str(e) + " Body: " + text`; otherwise re-raise. -/
def check_results (status : Nat) (reason url text : String) : Except PyErr Unit :=
  match raise_for_status status reason url with
  | .ok () => .ok ()
  | .error e =>
    if text ≠ "" then
      match e with
      | .httpError msg => .error (.httpError (msg ++ " Body: " ++ text))
      | other => .error other
    else .error e

end Gen2

namespace Gen1

/-- Generation 1 `CleanRoomRestClient._check_results`: identical to
generation 2 except the wrapped message is built from `str(e.message)`;
`HTTPError` has no `message` attribute in Python 3, so the non-empty-body
branch raises `AttributeError` instead. -/
def check_results (status : Nat) (reason url text : String) : Except PyErr Unit :=
  match raise_for_status status reason url with
  | .ok () => .ok ()
  | .error e =>
    if text ≠ "" then
      .error (.attributeError "HTTPError object has no attribute message")
    else .error e

end Gen1

/-- C6 counterexample: the claim says every call with a non-2xx status raises
an error carrying status, message and body, and that a 409 with body
`"station exists"` raises an error whose message contains `"station exists"`.
Both parts fail on the code: a 304 (non-2xx) response passes
`raise_for_status` silently in both generations, and the generation-1 client
on a 409 with body `"station exists"` raises an `AttributeError` (from
`str(e.message)`) that mentions neither the status nor the body. -/
theorem C6_counterexample :
    Gen2.check_results 304 "Not Modified" "u" "cached" = .ok () ∧
    Gen1.check_results 304 "Not Modified" "u" "cached" = .ok () ∧
    (Gen1.check_results 409 "Conflict" "u" "station exists" =
      .error (.attributeError "HTTPError object has no attribute message") ∧
     strContainsB "HTTPError object has no attribute message" "station exists" = false) := by
  refine ⟨rfl, rfl, rfl, ?_⟩
  decide

/-- C6 amended: for every generation-2 Resource Client call whose HTTP status
is 4xx or 5xx, an `HTTPError` is raised whose message carries the status and
the error message of the platform, and additionally the raw response body when the
body is non-empty; in particular a 409 `createStation` response with body
`"station exists"` yields a message containing `"station exists"`.  (Statuses
outside 400..599 do not raise, and generation 1 raises an uninformative
`AttributeError` on the non-empty-body path — see the counterexample.) -/
theorem C6_error_policy :
    (∀ (status : Nat) (reason url text : String),
      400 ≤ status → status < 600 →
        ∃ msg, Gen2.check_results status reason url text = .error (.httpError msg) ∧
          strContainsB msg (toString status) = true ∧
          strContainsB msg reason = true ∧
          (text ≠ "" → strContainsB msg text = true)) ∧
    (∃ msg, Gen2.check_results 409 "Conflict" "url" "station exists" =
        .error (.httpError msg) ∧
      strContainsB msg "station exists" = true) := by
  constructor
  · intro status reason url text h4 h6
    by_cases hc : status < 500
    · by_cases ht : text = ""
      · refine ⟨toString status ++ " Client Error: " ++ reason ++ " for url: " ++ url,
          ?_, ?_, ?_, ?_⟩
        · simp [Gen2.check_results, raise_for_status, h4, hc, ht]
        · have := strContainsB_parts ""
            (toString status) (" Client Error: " ++ reason ++ " for url: " ++ url)
          simpa [String.append_assoc] using this
        · have := strContainsB_parts (toString status ++ " Client Error: ")
            reason (" for url: " ++ url)
          simpa [String.append_assoc] using this
        · intro hx
          exact absurd ht hx
      · refine ⟨toString status ++ " Client Error: " ++ reason ++ " for url: " ++ url
            ++ " Body: " ++ text, ?_, ?_, ?_, ?_⟩
        · simp [Gen2.check_results, raise_for_status, h4, hc, ht]
        · have := strContainsB_parts ""
            (toString status)
            (" Client Error: " ++ reason ++ " for url: " ++ url ++ " Body: " ++ text)
          simpa [String.append_assoc] using this
        · have := strContainsB_parts (toString status ++ " Client Error: ")
            reason (" for url: " ++ url ++ " Body: " ++ text)
          simpa [String.append_assoc] using this
        · intro _
          exact strContainsB_right
            (toString status ++ " Client Error: " ++ reason ++ " for url: " ++ url
              ++ " Body: ") text
    · have h5 : 500 ≤ status := by omega
      by_cases ht : text = ""
      · refine ⟨toString status ++ " Server Error: " ++ reason ++ " for url: " ++ url,
          ?_, ?_, ?_, ?_⟩
        · simp [Gen2.check_results, raise_for_status, h4, hc, h5, h6, ht]
        · have := strContainsB_parts ""
            (toString status) (" Server Error: " ++ reason ++ " for url: " ++ url)
          simpa [String.append_assoc] using this
        · have := strContainsB_parts (toString status ++ " Server Error: ")
            reason (" for url: " ++ url)
          simpa [String.append_assoc] using this
        · intro hx
          exact absurd ht hx
      · refine ⟨toString status ++ " Server Error: " ++ reason ++ " for url: " ++ url
            ++ " Body: " ++ text, ?_, ?_, ?_, ?_⟩
        · simp [Gen2.check_results, raise_for_status, h4, hc, h5, h6, ht]
        · have := strContainsB_parts ""
            (toString status)
            (" Server Error: " ++ reason ++ " for url: " ++ url ++ " Body: " ++ text)
          simpa [String.append_assoc] using this
        · have := strContainsB_parts (toString status ++ " Server Error: ")
            reason (" for url: " ++ url ++ " Body: " ++ text)
          simpa [String.append_assoc] using this
        · intro _
          exact strContainsB_right
            (toString status ++ " Server Error: " ++ reason ++ " for url: " ++ url
              ++ " Body: ") text
  · refine ⟨"409 Client Error: Conflict for url: url Body: station exists", rfl, ?_⟩
    decide

/-- Witness for C6 at a concrete input: a 409 response with body
`"station exists"` raises an `HTTPError` whose message contains the status,
the reason and the body. -/
theorem C6_witness :
    ∃ msg, Gen2.check_results 409 "Conflict" "url" "station exists" =
        .error (.httpError msg) ∧
      strContainsB msg "409" = true ∧
      strContainsB msg "Conflict" = true ∧
      (("station exists" : String) ≠ "" → strContainsB msg "station exists" = true) := by
  have h := C6_error_policy.1 409 "Conflict" "url" "station exists"
    (by omega) (by omega)
  obtain ⟨msg, h1, h2, h3, h4⟩ := h
  exact ⟨msg, h1, h2, h3, h4⟩

/- ### `parseParameters` (claim C7)

`json.loads` is an external library function; the embedding takes it as a
parameter `loads : String → Json` (the claim only concerns inputs on which
parsing yields a JSON value).  Note that after `json.loads`, every dict key
is a Python `str`, so the `isinstance(k, str)` check of the source always passes;
the value check `isinstance(v, str)` corresponds to the value being a
`Json.jstr`. -/

/-- Is this JSON value a Python `str`? (`isinstance(v, str)`) -/
def Json.isStr : Json → Bool
  | .jstr _ => true
  | _ => false

/-- The `str` payload of a JSON string value (only read where `isStr`). -/
def Json.asStr : Json → String
  | .jstr s => s
  | _ => ""

namespace Gen2

/-- The validation loop of `parseParameters` over `parameters_json.items()`:
raises `RuntimeError` at the first non-`str` value (keys are always `str`
after `json.loads`); when all values are strings, the parsed mapping is
returned. -/
def checkItems (parameters : String) :
    List (String × Json) → Except PyErr (List (String × String))
  | [] => .ok []
  | (k, v) :: rest =>
    if v.isStr then
      match checkItems parameters rest with
      | .ok tl => .ok ((k, v.asStr) :: tl)
      | .error e => .error e
    else
      .error (.runtimeError ("All values in $" ++ parameters ++ " must be strings"))

/-- Model of `CleanRoomClient.parseParameters`: empty input returns an empty mapping;
otherwise the input is parsed with `json.loads` and every key/value checked
to be a string (`.items()` on a non-dict raises `AttributeError`). -/
def parseParameters (parameters : String) (loads : String → Json) :
    Except PyErr (List (String × String)) :=
  if parameters = "" then .ok []
  else
    match loads parameters with
    | .jobj kvs => checkItems parameters kvs
    | _ => .error (.attributeError "object has no attribute items")

theorem checkItems_error_iff (parameters : String) (kvs : List (String × Json)) :
    (∃ e, checkItems parameters kvs = .error e) ↔
      ∃ kv ∈ kvs, kv.2.isStr = false := by
  induction kvs with
  | nil => simp [checkItems]
  | cons kv rest ih =>
    obtain ⟨k, v⟩ := kv
    by_cases hv : v.isStr
    · have hstep : ∀ e, checkItems parameters ((k, v) :: rest) = .error e ↔
          checkItems parameters rest = .error e := by
        intro e
        cases hm : checkItems parameters rest with
        | ok tl => simp [checkItems, hv, hm]
        | error e' => simp [checkItems, hv, hm]
      constructor
      · rintro ⟨e, he⟩
        obtain ⟨x, hx1, hx2⟩ := ih.1 ⟨e, (hstep e).1 he⟩
        exact ⟨x, List.mem_cons_of_mem _ hx1, hx2⟩
      · rintro ⟨x, hx1, hx2⟩
        rcases List.mem_cons.1 hx1 with hx | hx
        · exfalso
          rw [hx] at hx2
          simp [hv] at hx2
        · obtain ⟨e, he⟩ := ih.2 ⟨x, hx, hx2⟩
          exact ⟨e, (hstep e).2 he⟩
    · constructor
      · intro _
        refine ⟨(k, v), by simp, ?_⟩
        simpa using hv
      · intro _
        refine ⟨PyErr.runtimeError
          ("All values in $" ++ parameters ++ " must be strings"), ?_⟩
        simp [checkItems, hv]

theorem checkItems_ok (parameters : String) (kvs : List (String × Json))
    (h : ∀ kv ∈ kvs, kv.2.isStr = true) :
    checkItems parameters kvs = .ok (kvs.map fun kv => (kv.1, kv.2.asStr)) := by
  induction kvs with
  | nil => simp [checkItems]
  | cons kv rest ih =>
    obtain ⟨k, v⟩ := kv
    have hv : v.isStr = true := h (k, v) (by simp)
    have hrest : ∀ kv ∈ rest, kv.2.isStr = true := fun x hx => h x (by simp [hx])
    simp [checkItems, hv, ih hrest]

/-- C7: `parseParameters("")` returns the empty mapping; on a parsed
`{"a": 1}` it raises the `RuntimeError` configuration error (non-string
value); on a parsed `{"a": "b"}` it returns `{"a": "b"}`; and for every
JSON-object input it raises the configuration error iff some value is not a
string (keys are always strings after `json.loads`), returning the parsed
string-to-string mapping otherwise. -/
theorem C7_parseParameters :
    (∀ loads, parseParameters "" loads = .ok []) ∧
    (∀ loads, loads "\x7b\"a\":1\x7d" = Json.jobj [("a", Json.jnum 1)] →
      parseParameters "\x7b\"a\":1\x7d" loads =
        .error (.runtimeError
          ("All values in $" ++ "\x7b\"a\":1\x7d" ++ " must be strings"))) ∧
    (∀ loads, loads "\x7b\"a\":\"b\"\x7d" = Json.jobj [("a", Json.jstr "b")] →
      parseParameters "\x7b\"a\":\"b\"\x7d" loads = .ok [("a", "b")]) ∧
    (∀ (loads : String → Json) (parameters : String) (kvs : List (String × Json)),
      parameters ≠ "" → loads parameters = Json.jobj kvs →
        ((∃ e, parseParameters parameters loads = .error e) ↔
          ∃ kv ∈ kvs, kv.2.isStr = false) ∧
        ((∀ kv ∈ kvs, kv.2.isStr = true) →
          parseParameters parameters loads =
            .ok (kvs.map fun kv => (kv.1, kv.2.asStr)))) := by
  refine ⟨fun loads => rfl, ?_, ?_, ?_⟩
  · intro loads h
    rw [parseParameters, if_neg (by decide), h]
    rfl
  · intro loads h
    rw [parseParameters, if_neg (by decide), h]
    rfl
  · intro loads parameters kvs hne h
    constructor
    · rw [parseParameters, if_neg hne, h]
      exact checkItems_error_iff parameters kvs
    · intro hall
      rw [parseParameters, if_neg hne, h]
      exact checkItems_ok parameters kvs hall

/-- Witness for C7 at concrete inputs, with a concrete `loads` for the two
scripted parse results. -/
theorem C7_witness :
    parseParameters "" (fun _ => Json.jnull) = .ok [] ∧
    parseParameters "\x7b\"a\":1\x7d"
        (fun _ => Json.jobj [("a", Json.jnum 1)]) =
      .error (.runtimeError
        ("All values in $" ++ "\x7b\"a\":1\x7d" ++ " must be strings")) ∧
    parseParameters "\x7b\"a\":\"b\"\x7d"
        (fun _ => Json.jobj [("a", Json.jstr "b")]) = .ok [("a", "b")] := by
  refine ⟨C7_parseParameters.1 _, ?_, ?_⟩
  · exact C7_parseParameters.2.1 (fun _ => Json.jobj [("a", Json.jnum 1)]) rfl
  · exact C7_parseParameters.2.2.1 (fun _ => Json.jobj [("a", Json.jstr "b")]) rfl

end Gen2

/- ### Platform-call traces and the scripted platform

The interactions of the controller with the platform are recorded as events; the
responses of the platform come from a `Script`.  Every embedded operation returns
`(outcome, trace)`: the Python result (or exception) together with the
ordered list of calls it issued.  `setTaskValue`/`displayHTML` record the
`dbutils.jobs.taskValues.set` handoff writes and the HTML rendering, which
are not platform resource calls. -/

/-- One interaction of the orchestrator with its environment. -/
inductive Event where
  | createStation (clean_room station_name : String)
  | setupResource (clean_room station_name : String) (body : Json)
  | getWorkspaceStatus (clean_room station_name : String)
  | runNotebook (clean_room station_name : String)
      (base_parameters : List (String × String))
  | getRunState (clean_room station_name : String)
  | exportOutput (clean_room station_name : String)
  | importNotebook (path content : String)
  | getNotebookStatus (path : String)
  | teardownResource (clean_room station_name : String) (body : Json)
  | deleteStation (clean_room station_name : String)
  | setTaskValue (key : String)
  | displayHTML

/-- Is this event an HTTP call to the platform (as opposed to a handoff-store
write or HTML rendering)? -/
def isPlatformEv : Event → Bool
  | .setTaskValue _ => false
  | .displayHTML => false
  | _ => true

def isGetWorkspaceStatusEv : Event → Bool
  | .getWorkspaceStatus _ _ => true
  | _ => false

def isGetRunStateEv : Event → Bool
  | .getRunState _ _ => true
  | _ => false

def isTeardownResourceEv : Event → Bool
  | .teardownResource _ _ _ => true
  | _ => false

def isDeleteStationEv : Event → Bool
  | .deleteStation _ _ => true
  | _ => false

/-- Scripted platform responses for one `prepareAndRunNotebook` execution.
`Option PyErr` fields are `none` when the call succeeds (each such call is
issued exactly once).  The two status lists are consumed in order by the two
poll loops.  `username`/`nowIso`/`b64encode` model the ambient notebook
context, the wall clock and the external base64 encoder. -/
structure Script where
  createStationErr : Option PyErr
  setupErr : Resource → Option PyErr
  workspaceStatuses : List String
  runNotebookErr : Option PyErr
  runStates : List RunState
  exportErr : Option PyErr
  notebook_contents : String
  importErr : Option PyErr
  getStatusErr : Option PyErr
  object_id : String
  username : String
  nowIso : String
  b64encode : String → String

/-- Sequence two traced computations; on error the trace stops there
(an uncaught Python exception aborts the rest of the sequence). -/
def seqE {α β : Type} (a : Except PyErr α × List Event)
    (f : α → Except PyErr β × List Event) : Except PyErr β × List Event :=
  match a with
  | (.error e, tr) => (.error e, tr)
  | (.ok x, tr) => ((f x).1, tr ++ (f x).2)

theorem seqE_trace {α β : Type} (a : Except PyErr α × List Event)
    (f : α → Except PyErr β × List Event) :
    ∃ r, (seqE a f).2 = a.2 ++ r := by
  obtain ⟨res, tr⟩ := a
  cases res with
  | error e => exact ⟨[], by simp [seqE]⟩
  | ok x => exact ⟨(f x).2, by simp [seqE]⟩

theorem seqE_eq_ok {α β : Type} {a : Except PyErr α × List Event}
    {f : α → Except PyErr β × List Event} {y : β} {tr : List Event}
    (h : seqE a f = (.ok y, tr)) :
    ∃ x tb, a.1 = .ok x ∧ f x = (.ok y, tb) ∧ tr = a.2 ++ tb := by
  obtain ⟨res, ta⟩ := a
  cases res with
  | error e => simp [seqE] at h
  | ok x =>
    simp only [seqE] at h
    obtain ⟨h1, h2⟩ := Prod.mk.injEq .. ▸ h
    refine ⟨x, (f x).2, rfl, ?_, h2.symm⟩
    calc f x = ((f x).1, (f x).2) := rfl
    _ = (.ok y, (f x).2) := by rw [h1]

/-- A call that returns no data the controller uses: the event is issued,
then the scripted outcome decides success or exception. -/
def checkedCall (res : Option PyErr) (ev : Event) : Except PyErr Unit × List Event :=
  (match res with | some e => .error e | none => .ok (), [ev])

theorem checkedCall_ok {res : Option PyErr} {ev : Event} {x : Unit}
    (h : (checkedCall res ev).1 = .ok x) : res = none := by
  cases res with
  | none => rfl
  | some e => simp [checkedCall] at h

namespace Gen2

/-- The `{"resource": {"resource_type": <name>}}` body that the generation-2
`setupStationResource` and `teardownStationResource` both post. -/
def resourceBody (r : Resource) : Json :=
  Json.jobj [("resource", Json.jobj [("resource_type", Json.jstr r.name)])]

def callCreateStation (cr sn : String) (s : Script) :
    Except PyErr Unit × List Event :=
  checkedCall s.createStationErr (.createStation cr sn)

def callSetupResource (cr sn : String) (s : Script) (r : Resource) :
    Except PyErr Unit × List Event :=
  checkedCall (s.setupErr r) (.setupResource cr sn (resourceBody r))

/-- The workspace wait loop, issuing one `getWorkspaceStatus` call per
iteration. -/
def callPollWorkspace (cr sn : String) (s : Script) :
    Except PyErr Unit × List Event :=
  match pollWorkspace s.workspaceStatuses with
  | .success n => (.ok (), List.replicate n (.getWorkspaceStatus cr sn))
  | .failure n => (.error (.runtimeError "Workspace could not be provisioned"),
      List.replicate n (.getWorkspaceStatus cr sn))
  | .exhausted => (.error .scriptExhausted,
      List.replicate s.workspaceStatuses.length (.getWorkspaceStatus cr sn))

def callRunNotebook (cr sn : String) (params : List (String × String)) (s : Script) :
    Except PyErr Unit × List Event :=
  checkedCall s.runNotebookErr (.runNotebook cr sn params)

/-- The notebook-run wait loop, issuing one `getRunState` call per
iteration; on success it returns the terminal `state` record. -/
def callPollRun (cr sn : String) (s : Script) :
    Except PyErr RunState × List Event :=
  match pollRun s.runStates with
  | .success n st => (.ok st, List.replicate n (.getRunState cr sn))
  | .failure n => (.error (.runtimeError "Notebook could not be run"),
      List.replicate n (.getRunState cr sn))
  | .exhausted => (.error .scriptExhausted,
      List.replicate s.runStates.length (.getRunState cr sn))

def callExport (cr sn : String) (s : Script) : Except PyErr String × List Event :=
  (match s.exportErr with
   | some e => .error e
   | none => .ok s.notebook_contents,
   [.exportOutput cr sn])

def callImport (path content : String) (s : Script) :
    Except PyErr Unit × List Event :=
  checkedCall s.importErr (.importNotebook path content)

def callGetNotebookStatus (path : String) (s : Script) :
    Except PyErr String × List Event :=
  (match s.getStatusErr with
   | some e => .error e
   | none => .ok s.object_id,
   [.getNotebookStatus path])

/-- The import path `/Users/<user>/clean_room_output_<ISO timestamp>`. -/
def outPath (s : Script) : String :=
  "/Users/" ++ s.username ++ "/clean_room_output_" ++ s.nowIso

/-- Generation 2 `CleanRoomClient._prepareAndRunNotebookHelper`: create the
station; set up metastore, collaborator shares, workspace; wait for the
workspace; set up notebook service principal and notebook; run the notebook;
wait for the run; export, base64-encode and re-import the output; fetch the
status of the imported notebook and return the terminal state plus the
`/#notebook/<object_id>` link.  (`output_table_parameters` is accepted and
never used, as in the source.) -/
def prepareAndRunNotebookHelper (cr sn notebook_collaborator notebook_name : String)
    (notebook_parameters : List (String × String))
    (output_table_parameters : List (String × String)) (s : Script) :
    Except PyErr (RunState × String) × List Event :=
  seqE (callCreateStation cr sn s) fun _ =>
  seqE (callSetupResource cr sn s .METASTORE) fun _ =>
  seqE (callSetupResource cr sn s .COLLABORATOR_SHARES) fun _ =>
  seqE (callSetupResource cr sn s .WORKSPACE) fun _ =>
  seqE (callPollWorkspace cr sn s) fun _ =>
  seqE (callSetupResource cr sn s .NOTEBOOK_SERVICE_PRINCIPAL) fun _ =>
  seqE (callSetupResource cr sn s .NOTEBOOK) fun _ =>
  seqE (callRunNotebook cr sn notebook_parameters s) fun _ =>
  seqE (callPollRun cr sn s) fun st =>
  seqE (callExport cr sn s) fun contents =>
  seqE (callImport (outPath s) (s.b64encode contents) s) fun _ =>
  seqE (callGetNotebookStatus (outPath s) s) fun oid =>
  (.ok (st, "/#notebook/" ++ oid), [])

end Gen2

namespace Gen2

/-- Shape of every successful `_prepareAndRunNotebookHelper` execution: the
full ordered trace, with `a ≥ 1` workspace-status polls between the workspace
setup and the service-principal setup, and `b ≥ 1` run-state polls between
the run trigger and the export. -/
theorem helper_ok_shape {cr sn nc nn : String} {np otp : List (String × String)}
    {s : Script} {st : RunState} {link : String} {tr : List Event}
    (h : prepareAndRunNotebookHelper cr sn nc nn np otp s = (.ok (st, link), tr)) :
    ∃ a b : Nat,
      pollWorkspace s.workspaceStatuses = .success a ∧
      pollRun s.runStates = .success b st ∧
      1 ≤ a ∧ 1 ≤ b ∧
      link = "/#notebook/" ++ s.object_id ∧
      tr = [Event.createStation cr sn,
            Event.setupResource cr sn (resourceBody .METASTORE),
            Event.setupResource cr sn (resourceBody .COLLABORATOR_SHARES),
            Event.setupResource cr sn (resourceBody .WORKSPACE)] ++
        List.replicate a (Event.getWorkspaceStatus cr sn) ++
        [Event.setupResource cr sn (resourceBody .NOTEBOOK_SERVICE_PRINCIPAL),
         Event.setupResource cr sn (resourceBody .NOTEBOOK),
         Event.runNotebook cr sn np] ++
        List.replicate b (Event.getRunState cr sn) ++
        [Event.exportOutput cr sn,
         Event.importNotebook (outPath s) (s.b64encode s.notebook_contents),
         Event.getNotebookStatus (outPath s)] := by
  unfold prepareAndRunNotebookHelper at h
  obtain ⟨u1, t1, hok1, h, htr0⟩ := seqE_eq_ok h
  obtain ⟨u2, t2, hok2, h, htr1⟩ := seqE_eq_ok h
  obtain ⟨u3, t3, hok3, h, htr2⟩ := seqE_eq_ok h
  obtain ⟨u4, t4, hok4, h, htr3⟩ := seqE_eq_ok h
  obtain ⟨u5, t5, hok5, h, htr4⟩ := seqE_eq_ok h
  obtain ⟨u6, t6, hok6, h, htr5⟩ := seqE_eq_ok h
  obtain ⟨u7, t7, hok7, h, htr6⟩ := seqE_eq_ok h
  obtain ⟨u8, t8, hok8, h, htr7⟩ := seqE_eq_ok h
  obtain ⟨st0, t9, hok9, h, htr8⟩ := seqE_eq_ok h
  obtain ⟨contents, t10, hok10, h, htr9⟩ := seqE_eq_ok h
  obtain ⟨u11, t11, hok11, h, htr10⟩ := seqE_eq_ok h
  obtain ⟨oid, t12, hok12, hfin, htr11⟩ := seqE_eq_ok h
  simp only [Prod.mk.injEq, Except.ok.injEq] at hfin
  obtain ⟨⟨hst, hlink⟩, ht12⟩ := hfin
  -- resolve the data-returning calls
  have hok5' : ∃ a, pollWorkspace s.workspaceStatuses = PollOut.success a := by
    cases hwp : pollWorkspace s.workspaceStatuses with
    | success n => exact ⟨n, rfl⟩
    | failure n =>
      rw [show (callPollWorkspace cr sn s).1 =
          Except.error (.runtimeError "Workspace could not be provisioned") from by
        simp [callPollWorkspace, hwp]] at hok5
      exact absurd hok5 (by simp)
    | exhausted =>
      rw [show (callPollWorkspace cr sn s).1 = Except.error PyErr.scriptExhausted from by
        simp [callPollWorkspace, hwp]] at hok5
      exact absurd hok5 (by simp)
  obtain ⟨a, hwp⟩ := hok5'
  have hok9' : ∃ b, pollRun s.runStates = RunPollOut.success b st0 := by
    cases hrp : pollRun s.runStates with
    | success n st1 =>
      have h1 : (callPollRun cr sn s).1 = Except.ok st1 := by
        simp [callPollRun, hrp]
      rw [h1] at hok9
      have hse : st1 = st0 := by simpa using hok9
      exact ⟨n, by rw [hse]⟩
    | failure n =>
      have h1 : (callPollRun cr sn s).1 =
          Except.error (.runtimeError "Notebook could not be run") := by
        simp [callPollRun, hrp]
      rw [h1] at hok9
      exact absurd hok9 (by simp)
    | exhausted =>
      have h1 : (callPollRun cr sn s).1 = Except.error PyErr.scriptExhausted := by
        simp [callPollRun, hrp]
      rw [h1] at hok9
      exact absurd hok9 (by simp)
  obtain ⟨b, hrp⟩ := hok9'
  cases hge : s.getStatusErr with
  | some e =>
    rw [show (callGetNotebookStatus (outPath s) s).1 = .error e from by
      simp [callGetNotebookStatus, hge]] at hok12
    exact absurd hok12 (by simp)
  | none =>
    have hoid : oid = s.object_id := by
      rw [show (callGetNotebookStatus (outPath s) s).1 = .ok s.object_id from by
        simp [callGetNotebookStatus, hge]] at hok12
      simpa using hok12.symm
    cases hex : s.exportErr with
    | some e =>
      rw [show (callExport cr sn s).1 = .error e from by
        simp [callExport, hex]] at hok10
      exact absurd hok10 (by simp)
    | none =>
      have hcontents : contents = s.notebook_contents := by
        rw [show (callExport cr sn s).1 = .ok s.notebook_contents from by
          simp [callExport, hex]] at hok10
        simpa using hok10.symm
      subst hoid hcontents
      have hrp' : pollRun s.runStates = RunPollOut.success b st := by
        rw [hst] at hrp
        exact hrp
      refine ⟨a, b, hwp, hrp', pollWorkspace_success_pos hwp,
        pollRun_success_pos hrp', hlink.symm, ?_⟩
      subst htr0 htr1 htr2 htr3 htr4 htr5 htr6 htr7 htr8 htr9 htr10 htr11
      rw [← ht12]
      have hcw : (callPollWorkspace cr sn s).2 =
          List.replicate a (Event.getWorkspaceStatus cr sn) := by
        simp [callPollWorkspace, hwp]
      have hcr : (callPollRun cr sn s).2 =
          List.replicate b (Event.getRunState cr sn) := by
        simp [callPollRun, hrp]
      simp [callCreateStation, callSetupResource, callRunNotebook, callExport,
        callImport, callGetNotebookStatus, checkedCall, hcw, hcr]

end Gen2

namespace Gen2

/-- The pre-platform part of generation 2 `prepareAndRunNotebook`: parse the
two JSON parameter maps, then require `Clean Room`/`Station Name` to be
non-empty.  Any failure here aborts before any platform call and before the
`station_created` flag is written. -/
def preChecks (cr sn np_raw otp_raw : String) (loads : String → Json) :
    Except PyErr (List (String × String) × List (String × String)) :=
  match parseParameters np_raw loads with
  | .error e => .error e
  | .ok notebook_parameters =>
    match parseParameters otp_raw loads with
    | .error e => .error e
    | .ok output_table_parameters =>
      if cr = "" ∨ sn = "" then
        .error (.runtimeError "Clean Room and Station Name must be non-empty")
      else .ok (notebook_parameters, output_table_parameters)

/-- The part of generation 2 `prepareAndRunNotebook` after the pre-checks:
unconditionally record the `station_created` task value, run the helper,
record `notebook_url` and `notebook_run_state`, render the link, and raise
when the terminal `result_state` is not `"SUCCESS"`. -/
def runPhaseMain (cr sn notebook_collaborator notebook_name : String)
    (notebook_parameters output_table_parameters : List (String × String))
    (s : Script) : Except PyErr Unit × List Event :=
  seqE ((.ok (), [Event.setTaskValue "station_created"]) :
      Except PyErr Unit × List Event) fun _ =>
  seqE (prepareAndRunNotebookHelper cr sn notebook_collaborator notebook_name
    notebook_parameters output_table_parameters s) fun res =>
  seqE ((.ok (), [Event.setTaskValue "notebook_url",
      Event.setTaskValue "notebook_run_state", Event.displayHTML]) :
      Except PyErr Unit × List Event) fun _ =>
  if res.1.result_state ≠ "SUCCESS" then
    (.error (.runtimeError "Notebook run failed. Please inspect results."), [])
  else (.ok (), [])

/-- Generation 2 `CleanRoomClient.prepareAndRunNotebook` (the run phase). -/
def prepareAndRunNotebook (cr sn notebook_collaborator notebook_name : String)
    (np_raw otp_raw : String) (loads : String → Json) (s : Script) :
    Except PyErr Unit × List Event :=
  match preChecks cr sn np_raw otp_raw loads with
  | .error e => (.error e, [])
  | .ok (notebook_parameters, output_table_parameters) =>
    runPhaseMain cr sn notebook_collaborator notebook_name
      notebook_parameters output_table_parameters s

/-- Scripted outcomes for the five teardown-phase calls, plus the persisted
handoff values the teardown phase reads back. -/
structure TeardownScript where
  teardownErr : Resource → Option PyErr
  deleteErr : Option PyErr
  notebook_url : String
  notebook_run_state : Option RunState

def callTeardownResource (cr sn : String) (ts : TeardownScript) (r : Resource) :
    Except PyErr Unit × List Event :=
  checkedCall (ts.teardownErr r) (.teardownResource cr sn (resourceBody r))

def callDeleteStation (cr sn : String) (ts : TeardownScript) :
    Except PyErr Unit × List Event :=
  checkedCall ts.deleteErr (.deleteStation cr sn)

/-- Generation 2 `CleanRoomClient._teardownStationHelper`: teardown calls for
NOTEBOOK_SERVICE_PRINCIPAL, WORKSPACE, COLLABORATOR_SHARES, METASTORE, then
`deleteStation`, sequentially, with no exception handling. -/
def teardownStationHelper (cr sn : String) (ts : TeardownScript) :
    Except PyErr Unit × List Event :=
  seqE (callTeardownResource cr sn ts .NOTEBOOK_SERVICE_PRINCIPAL) fun _ =>
  seqE (callTeardownResource cr sn ts .WORKSPACE) fun _ =>
  seqE (callTeardownResource cr sn ts .COLLABORATOR_SHARES) fun _ =>
  seqE (callTeardownResource cr sn ts .METASTORE) fun _ =>
  callDeleteStation cr sn ts

/-- Generation 2 `CleanRoomClient.teardownStation`: guarded by the persisted
`station_created` task value; afterwards re-renders the results link when
both `notebook_url` and `notebook_run_state` were persisted. -/
def teardownStation (station_created : Bool) (cr sn : String)
    (ts : TeardownScript) : Except PyErr Unit × List Event :=
  if station_created then
    seqE (teardownStationHelper cr sn ts) fun _ =>
    ((.ok (), if ts.notebook_url ≠ "" ∧ ts.notebook_run_state.isSome
      then [Event.displayHTML] else []) : Except PyErr Unit × List Event)
  else (.ok (), [])

/-- The five teardown-phase calls in the order the source issues them. -/
def fullTeardownSeq (cr sn : String) : List Event :=
  [Event.teardownResource cr sn (resourceBody .NOTEBOOK_SERVICE_PRINCIPAL),
   Event.teardownResource cr sn (resourceBody .WORKSPACE),
   Event.teardownResource cr sn (resourceBody .COLLABORATOR_SHARES),
   Event.teardownResource cr sn (resourceBody .METASTORE),
   Event.deleteStation cr sn]

/-- Every helper trace begins with the `createStation` call. -/
theorem helper_trace_head (cr sn nc nn : String) (np otp : List (String × String))
    (s : Script) :
    ∃ rest, (prepareAndRunNotebookHelper cr sn nc nn np otp s).2 =
      Event.createStation cr sn :: rest := by
  unfold prepareAndRunNotebookHelper
  obtain ⟨r, hr⟩ := seqE_trace (callCreateStation cr sn s) _
  exact ⟨r, hr⟩

end Gen2

/-- C5: in every successful generation-2 `prepareAndRunNotebook` execution,
the resource setups are issued in the dependency order metastore →
collaborator shares → workspace → (after `a ≥ 1` workspace-status polls)
notebook service principal → notebook, each exactly once; no later resource
is set up before an earlier one, since the whole trace is the stated
sequence. -/
theorem C5_setup_order :
    ∀ (cr sn nc nn : String) (np otp : List (String × String)) (s : Script)
      (st : RunState) (link : String) (tr : List Event),
      Gen2.prepareAndRunNotebookHelper cr sn nc nn np otp s = (.ok (st, link), tr) →
      ∃ a b : Nat, 1 ≤ a ∧ 1 ≤ b ∧
        tr = [Event.createStation cr sn,
              Event.setupResource cr sn (Gen2.resourceBody .METASTORE),
              Event.setupResource cr sn (Gen2.resourceBody .COLLABORATOR_SHARES),
              Event.setupResource cr sn (Gen2.resourceBody .WORKSPACE)] ++
          List.replicate a (Event.getWorkspaceStatus cr sn) ++
          [Event.setupResource cr sn (Gen2.resourceBody .NOTEBOOK_SERVICE_PRINCIPAL),
           Event.setupResource cr sn (Gen2.resourceBody .NOTEBOOK),
           Event.runNotebook cr sn np] ++
          List.replicate b (Event.getRunState cr sn) ++
          [Event.exportOutput cr sn,
           Event.importNotebook (Gen2.outPath s) (s.b64encode s.notebook_contents),
           Event.getNotebookStatus (Gen2.outPath s)] := by
  intro cr sn nc nn np otp s st link tr h
  obtain ⟨a, b, _, _, ha, hb, _, htr⟩ := Gen2.helper_ok_shape h
  exact ⟨a, b, ha, hb, htr⟩

/-- An all-success script with a single status response per poll loop. -/
def scriptOk : Script :=
  ⟨none, fun _ => none, ["RUNNING"], none, [⟨"TERMINATED", "SUCCESS"⟩], none,
   "c", none, none, "42", "u", "t", fun x => x⟩

/-- Witness for C5, applying it to a concrete all-success script. -/
theorem C5_witness :
    ∃ a b : Nat, 1 ≤ a ∧ 1 ≤ b ∧
      ([Event.createStation "cr" "sn",
        Event.setupResource "cr" "sn" (Gen2.resourceBody .METASTORE),
        Event.setupResource "cr" "sn" (Gen2.resourceBody .COLLABORATOR_SHARES),
        Event.setupResource "cr" "sn" (Gen2.resourceBody .WORKSPACE),
        Event.getWorkspaceStatus "cr" "sn",
        Event.setupResource "cr" "sn" (Gen2.resourceBody .NOTEBOOK_SERVICE_PRINCIPAL),
        Event.setupResource "cr" "sn" (Gen2.resourceBody .NOTEBOOK),
        Event.runNotebook "cr" "sn" [],
        Event.getRunState "cr" "sn",
        Event.exportOutput "cr" "sn",
        Event.importNotebook "/Users/u/clean_room_output_t" "c",
        Event.getNotebookStatus "/Users/u/clean_room_output_t"]) =
      [Event.createStation "cr" "sn",
       Event.setupResource "cr" "sn" (Gen2.resourceBody .METASTORE),
       Event.setupResource "cr" "sn" (Gen2.resourceBody .COLLABORATOR_SHARES),
       Event.setupResource "cr" "sn" (Gen2.resourceBody .WORKSPACE)] ++
        List.replicate a (Event.getWorkspaceStatus "cr" "sn") ++
        [Event.setupResource "cr" "sn" (Gen2.resourceBody .NOTEBOOK_SERVICE_PRINCIPAL),
         Event.setupResource "cr" "sn" (Gen2.resourceBody .NOTEBOOK),
         Event.runNotebook "cr" "sn" []] ++
        List.replicate b (Event.getRunState "cr" "sn") ++
        [Event.exportOutput "cr" "sn",
         Event.importNotebook (Gen2.outPath scriptOk) (scriptOk.b64encode scriptOk.notebook_contents),
         Event.getNotebookStatus (Gen2.outPath scriptOk)] :=
  C5_setup_order "cr" "sn" "alice" "nb" [] [] scriptOk
    ⟨"TERMINATED", "SUCCESS"⟩ "/#notebook/42" _ rfl

/-- A teardown script whose very first teardown call
(NOTEBOOK_SERVICE_PRINCIPAL) fails. -/
def tsFail : Gen2.TeardownScript :=
  ⟨fun r => match r with
    | .NOTEBOOK_SERVICE_PRINCIPAL => some (.httpError "boom")
    | _ => none,
   none, "", none⟩

/-- C1 counterexample: when the first teardown call errors, the remaining
three teardown calls and `deleteStation` are never attempted — the trace is
the single failing call — contradicting "every one of these five calls is
attempted regardless of whether any individual call errors". -/
theorem C1_counterexample :
    Gen2.teardownStationHelper "cr" "sn" tsFail =
      (.error (.httpError "boom"),
       [Event.teardownResource "cr" "sn"
         (Gen2.resourceBody .NOTEBOOK_SERVICE_PRINCIPAL)]) ∧
    (Gen2.teardownStationHelper "cr" "sn" tsFail).2.countP isDeleteStationEv = 0 ∧
    (Gen2.teardownStationHelper "cr" "sn" tsFail).2.countP isTeardownResourceEv = 1 :=
  ⟨rfl, rfl, rfl⟩

/-- C1 amended: the teardown helper issues the calls in the fixed order
NOTEBOOK_SERVICE_PRINCIPAL, WORKSPACE, COLLABORATOR_SHARES, METASTORE, then
`deleteStation`; when no call errors, all five are attempted in that order,
and in general the sequence is fail-fast: the attempted calls are exactly a
prefix of that fixed sequence, stopping at the first erroring call. -/
theorem C1_teardown_order_failfast :
    (∀ (cr sn : String) (ts : Gen2.TeardownScript),
      (∀ r, ts.teardownErr r = none) → ts.deleteErr = none →
        Gen2.teardownStationHelper cr sn ts = (.ok (), Gen2.fullTeardownSeq cr sn)) ∧
    (∀ (cr sn : String) (ts : Gen2.TeardownScript),
      ∃ rest, (Gen2.teardownStationHelper cr sn ts).2 ++ rest =
        Gen2.fullTeardownSeq cr sn) := by
  constructor
  · intro cr sn ts hall hdel
    simp [Gen2.teardownStationHelper, seqE, Gen2.callTeardownResource,
      Gen2.callDeleteStation, checkedCall, hall .NOTEBOOK_SERVICE_PRINCIPAL,
      hall .WORKSPACE, hall .COLLABORATOR_SHARES, hall .METASTORE, hdel,
      Gen2.fullTeardownSeq]
  · intro cr sn ts
    cases h1 : ts.teardownErr .NOTEBOOK_SERVICE_PRINCIPAL with
    | some e =>
      exact ⟨[Event.teardownResource cr sn (Gen2.resourceBody .WORKSPACE),
        Event.teardownResource cr sn (Gen2.resourceBody .COLLABORATOR_SHARES),
        Event.teardownResource cr sn (Gen2.resourceBody .METASTORE),
        Event.deleteStation cr sn],
        by simp [Gen2.teardownStationHelper, seqE, Gen2.callTeardownResource,
          Gen2.callDeleteStation, checkedCall, h1, Gen2.fullTeardownSeq]⟩
    | none =>
      cases h2 : ts.teardownErr .WORKSPACE with
      | some e =>
        exact ⟨[Event.teardownResource cr sn (Gen2.resourceBody .COLLABORATOR_SHARES),
          Event.teardownResource cr sn (Gen2.resourceBody .METASTORE),
          Event.deleteStation cr sn],
          by simp [Gen2.teardownStationHelper, seqE, Gen2.callTeardownResource,
            Gen2.callDeleteStation, checkedCall, h1, h2, Gen2.fullTeardownSeq]⟩
      | none =>
        cases h3 : ts.teardownErr .COLLABORATOR_SHARES with
        | some e =>
          exact ⟨[Event.teardownResource cr sn (Gen2.resourceBody .METASTORE),
            Event.deleteStation cr sn],
            by simp [Gen2.teardownStationHelper, seqE, Gen2.callTeardownResource,
              Gen2.callDeleteStation, checkedCall, h1, h2, h3, Gen2.fullTeardownSeq]⟩
        | none =>
          cases h4 : ts.teardownErr .METASTORE with
          | some e =>
            exact ⟨[Event.deleteStation cr sn],
              by simp [Gen2.teardownStationHelper, seqE, Gen2.callTeardownResource,
                Gen2.callDeleteStation, checkedCall, h1, h2, h3, h4,
                Gen2.fullTeardownSeq]⟩
          | none =>
            exact ⟨[],
              by cases h5 : ts.deleteErr with
              | some e =>
                simp [Gen2.teardownStationHelper, seqE, Gen2.callTeardownResource,
                  Gen2.callDeleteStation, checkedCall, h1, h2, h3, h4, h5,
                  Gen2.fullTeardownSeq]
              | none =>
                simp [Gen2.teardownStationHelper, seqE, Gen2.callTeardownResource,
                  Gen2.callDeleteStation, checkedCall, h1, h2, h3, h4, h5,
                  Gen2.fullTeardownSeq]⟩

/-- Witness for the amended C1 theorem at a concrete no-failure script. -/
theorem C1_witness :
    Gen2.teardownStationHelper "cr" "sn" ⟨fun _ => none, none, "", none⟩ =
      (.ok (), Gen2.fullTeardownSeq "cr" "sn") :=
  C1_teardown_order_failfast.1 "cr" "sn" ⟨fun _ => none, none, "", none⟩
    (fun _ => rfl) rfl

/-- The C9 scenario script: workspace statuses `PROVISIONING`,
`PROVISIONING`, `RUNNING`; one in-progress run state then
`TERMINATED`/`SUCCESS`; `getNotebookStatus` returns `oid`. -/
def scriptC9 (ip oid : String) : Script :=
  ⟨none, fun _ => none, ["PROVISIONING", "PROVISIONING", "RUNNING"], none,
   [⟨ip, ""⟩, ⟨"TERMINATED", "SUCCESS"⟩], none, "c", none, none, oid, "u", "t",
   fun x => x⟩

/-- C9: with the scripted statuses `PROVISIONING, PROVISIONING, RUNNING` and
run states in-progress then `TERMINATED`/`SUCCESS`, `prepareAndRunNotebook`
makes exactly 3 workspace-status calls and exactly 2 run-state calls, and
returns the terminal state together with a link embedding the `object_id`
returned by `getNotebookStatus`. -/
theorem C9_end_to_end :
    ∀ ip oid : String,
      ip ≠ "TERMINATED" → ip ≠ "SKIPPED" → ip ≠ "INTERNAL_ERROR" →
      ((Gen2.prepareAndRunNotebookHelper "cr" "sn" "alice" "nb" [] []
          (scriptC9 ip oid)).2.countP isGetWorkspaceStatusEv = 3 ∧
       (Gen2.prepareAndRunNotebookHelper "cr" "sn" "alice" "nb" [] []
          (scriptC9 ip oid)).2.countP isGetRunStateEv = 2 ∧
       (Gen2.prepareAndRunNotebookHelper "cr" "sn" "alice" "nb" [] []
          (scriptC9 ip oid)).1 =
         .ok (⟨"TERMINATED", "SUCCESS"⟩, "/#notebook/" ++ oid) ∧
       strContainsB ("/#notebook/" ++ oid) oid = true) := by
  intro ip oid h1 h2 h3
  have hpre : ∀ w ∈ [(⟨ip, ""⟩ : RunState)], w.life_cycle_state ≠ "TERMINATED" ∧
      w.life_cycle_state ≠ "SKIPPED" ∧ w.life_cycle_state ≠ "INTERNAL_ERROR" := by
    intro w hw
    simp at hw
    subst hw
    exact ⟨h1, h2, h3⟩
  have hrp : pollRun [(⟨ip, ""⟩ : RunState), ⟨"TERMINATED", "SUCCESS"⟩] =
      .success 2 ⟨"TERMINATED", "SUCCESS"⟩ := by
    have h := pollRun_terminated_at [⟨ip, ""⟩] ⟨"TERMINATED", "SUCCESS"⟩ [] hpre rfl
    simpa using h
  have hwp : pollWorkspace ["PROVISIONING", "PROVISIONING", "RUNNING"] =
      .success 3 := rfl
  have hcomp : Gen2.prepareAndRunNotebookHelper "cr" "sn" "alice" "nb" [] []
      (scriptC9 ip oid) =
      (.ok (⟨"TERMINATED", "SUCCESS"⟩, "/#notebook/" ++ oid),
       [Event.createStation "cr" "sn",
        Event.setupResource "cr" "sn" (Gen2.resourceBody .METASTORE),
        Event.setupResource "cr" "sn" (Gen2.resourceBody .COLLABORATOR_SHARES),
        Event.setupResource "cr" "sn" (Gen2.resourceBody .WORKSPACE),
        Event.getWorkspaceStatus "cr" "sn", Event.getWorkspaceStatus "cr" "sn",
        Event.getWorkspaceStatus "cr" "sn",
        Event.setupResource "cr" "sn" (Gen2.resourceBody .NOTEBOOK_SERVICE_PRINCIPAL),
        Event.setupResource "cr" "sn" (Gen2.resourceBody .NOTEBOOK),
        Event.runNotebook "cr" "sn" [],
        Event.getRunState "cr" "sn", Event.getRunState "cr" "sn",
        Event.exportOutput "cr" "sn",
        Event.importNotebook "/Users/u/clean_room_output_t" "c",
        Event.getNotebookStatus "/Users/u/clean_room_output_t"]) := by
    simp [Gen2.prepareAndRunNotebookHelper, seqE, Gen2.callCreateStation,
      Gen2.callSetupResource, Gen2.callPollWorkspace, Gen2.callRunNotebook,
      Gen2.callPollRun, Gen2.callExport, Gen2.callImport,
      Gen2.callGetNotebookStatus, checkedCall, scriptC9, Gen2.outPath, hwp, hrp]
  refine ⟨?_, ?_, ?_, ?_⟩
  · rw [hcomp]
    rfl
  · rw [hcomp]
    rfl
  · rw [hcomp]
  · exact strContainsB_right "/#notebook/" oid

/-- Witness for C9 with the in-progress state `"PENDING"` and object id
`"12345"`. -/
theorem C9_witness :
    (Gen2.prepareAndRunNotebookHelper "cr" "sn" "alice" "nb" [] []
        (scriptC9 "PENDING" "12345")).2.countP isGetWorkspaceStatusEv = 3 ∧
    (Gen2.prepareAndRunNotebookHelper "cr" "sn" "alice" "nb" [] []
        (scriptC9 "PENDING" "12345")).2.countP isGetRunStateEv = 2 ∧
    (Gen2.prepareAndRunNotebookHelper "cr" "sn" "alice" "nb" [] []
        (scriptC9 "PENDING" "12345")).1 =
      .ok (⟨"TERMINATED", "SUCCESS"⟩, "/#notebook/" ++ "12345") ∧
    strContainsB ("/#notebook/" ++ "12345") "12345" = true :=
  C9_end_to_end "PENDING" "12345" (by decide) (by decide) (by decide)

/- ### JSON string contents (to state what a payload "passes") -/

mutual

/-- Every key and string value occurring anywhere in a JSON value. -/
def jsonStrings : Json → List String
  | .jnull => []
  | .jbool _ => []
  | .jnum _ => []
  | .jstr s => [s]
  | .jarr xs => jsonStringsArr xs
  | .jobj kvs => jsonStringsObj kvs

def jsonStringsArr : List Json → List String
  | [] => []
  | j :: rest => jsonStrings j ++ jsonStringsArr rest

def jsonStringsObj : List (String × Json) → List String
  | [] => []
  | (k, v) :: rest => k :: (jsonStrings v ++ jsonStringsObj rest)

end

/-- Does the payload mention `s` — i.e. does some key or string value of the
JSON body contain `s` as a substring? -/
def jsonMentionsB (s : String) (j : Json) : Bool :=
  (jsonStrings j).any fun t => strContainsB t s

theorem isPrefixOfB_self (n : List Char) : isPrefixOfB n n = true := by
  induction n with
  | nil => rfl
  | cons a as ih => simp [isPrefixOfB, ih]

theorem strContainsB_self (s : String) : strContainsB s s = true := by
  unfold strContainsB
  cases hd : s.data with
  | nil => simp [containsSub, isPrefixOfB]
  | cons c t => simp [containsSub, isPrefixOfB_self]

/- ### Python dynamic values (the generation-1 teardown bug, claim C10) -/

/-- A Python runtime value as far as `teardownStationResource` is concerned:
an `int` (the `.value` of an enum member), a `str`, or an enum member. -/
inductive PyVal where
  | vint (n : Int)
  | vstr (s : String)
  | venum (ename : String) (evalue : Int)
deriving DecidableEq, Repr

/-- Python `str + x`: concatenation when `x` is a `str`, `TypeError`
otherwise. -/
def pyStrConcat (a : String) : PyVal → Except PyErr String
  | .vstr s => .ok (a ++ s)
  | .vint _ => .error (.typeError "can only concatenate str (not int) to str")
  | .venum _ _ =>
    .error (.typeError "can only concatenate str (not TeardownResource) to str")

/-- Python attribute access `x.value`: enum members have it, `int`/`str` do
not. -/
def pyAttrValue : PyVal → Except PyErr PyVal
  | .venum _ v => .ok (.vint v)
  | .vint _ => .error (.attributeError "int object has no attribute value")
  | .vstr _ => .error (.attributeError "str object has no attribute value")

def jsonOfPyVal : PyVal → Json
  | .vint n => .jnum n
  | .vstr s => .jstr s
  | .venum e _ => .jstr e

namespace Gen1

/-- Scripted outcomes for the generation-1 teardown phase. -/
structure TeardownScript where
  nspErr : Option PyErr
  wsErr : Option PyErr
  csErr : Option PyErr
  msErr : Option PyErr
  deleteErr : Option PyErr
  notebook_url : String
  notebook_run_state : Option RunState

/-- Generation 1 `CleanRoomRestClient.teardownStationResource`: evaluates
`print("Tearing down station resource: " + resource.value)` — the
`resource.value` attribute access first, then the string concatenation —
then posts `{"resource": resource.value}`.  With the `int` argument the
callers pass, the attribute access raises `AttributeError` before any
request is issued. -/
def teardownStationResource (cr sn : String) (resource : PyVal)
    (httpErr : Option PyErr) : Except PyErr Unit × List Event :=
  match pyAttrValue resource with
  | .error e => (.error e, [])
  | .ok v1 =>
    match pyStrConcat "Tearing down station resource: " v1 with
    | .error e => (.error e, [])
    | .ok _ =>
      match pyAttrValue resource with
      | .error e => (.error e, [])
      | .ok v2 =>
        checkedCall httpErr
          (.teardownResource cr sn (Json.jobj [("resource", jsonOfPyVal v2)]))

/-- Generation 1 `CleanRoomClient.teardownStation`: passes
`TeardownResource.X.value` (an `int`) for each resource in the order
NOTEBOOK_SERVICE_PRINCIPAL, WORKSPACE, COLLABORATOR_SHARES, METASTORE, then
deletes the station. -/
def teardownStation (cr sn : String) (ts : TeardownScript) :
    Except PyErr Unit × List Event :=
  seqE (teardownStationResource cr sn
    (.vint TeardownResource.NOTEBOOK_SERVICE_PRINCIPAL.value) ts.nspErr) fun _ =>
  seqE (teardownStationResource cr sn
    (.vint TeardownResource.WORKSPACE.value) ts.wsErr) fun _ =>
  seqE (teardownStationResource cr sn
    (.vint TeardownResource.COLLABORATOR_SHARES.value) ts.csErr) fun _ =>
  seqE (teardownStationResource cr sn
    (.vint TeardownResource.METASTORE.value) ts.msErr) fun _ =>
  checkedCall ts.deleteErr (.deleteStation cr sn)

/-- The generation-1 module-level teardown entry of Job Step 2: guarded by
the persisted `station_created` task value; afterwards re-renders the
results link when both persisted values are present. -/
def teardownGuard (station_created : Bool) (cr sn : String)
    (ts : TeardownScript) : Except PyErr Unit × List Event :=
  if station_created then
    seqE (teardownStation cr sn ts) fun _ =>
    ((.ok (), if ts.notebook_url ≠ "" ∧ ts.notebook_run_state.isSome
      then [Event.displayHTML] else []) : Except PyErr Unit × List Event)
  else (.ok (), [])

/-- Scripted platform responses for a generation-1 `prepareAndRunNotebook`
run. -/
structure Script where
  createStationErr : Option PyErr
  metastoreErr : Option PyErr
  sharesErr : Option PyErr
  workspaceErr : Option PyErr
  nspErr : Option PyErr
  notebookErr : Option PyErr
  workspaceStatuses : List String
  runNotebookErr : Option PyErr
  runStates : List RunState
  exportErr : Option PyErr
  exportContent : String
  importErr : Option PyErr
  getStatusErr : Option PyErr
  object_id : String
  username : String
  nowIso : String
  browserHostName : String

/-- Body `{"metastore": {}}` of `setupStationMetastore`. -/
def metastoreBody : Json := Json.jobj [("metastore", Json.jobj [])]

/-- Body `{"workspace": {}}` of `setupStationWorkspace`. -/
def workspaceBody : Json := Json.jobj [("workspace", Json.jobj [])]

/-- Body `{"collaborator_shares": {"output_tables": {...}}}` of
`setupStationCollaboratorShares`. -/
def collaboratorSharesBody (output_tables : List (String × String)) : Json :=
  Json.jobj [("collaborator_shares", Json.jobj
    [("output_tables",
      Json.jobj (output_tables.map fun kv => (kv.1, Json.jstr kv.2)))])]

/-- Body `{"notebook_service_principal": {}}` of
`setupStationNotebookServicePrincipal`. -/
def notebookServicePrincipalBody : Json :=
  Json.jobj [("notebook_service_principal", Json.jobj [])]

/-- Body `{"notebook": {"notebook_collaborator": ..., "notebook_name": ...}}`
of `setupStationNotebook`. -/
def notebookBody (notebook_collaborator notebook_name : String) : Json :=
  Json.jobj [("notebook", Json.jobj
    [("notebook_collaborator", Json.jstr notebook_collaborator),
     ("notebook_name", Json.jstr notebook_name)])]

def callPollWorkspace (cr sn : String) (s : Script) :
    Except PyErr Unit × List Event :=
  match pollWorkspace s.workspaceStatuses with
  | .success n => (.ok (), List.replicate n (.getWorkspaceStatus cr sn))
  | .failure n => (.error (.runtimeError "Workspace could not be provisioned"),
      List.replicate n (.getWorkspaceStatus cr sn))
  | .exhausted => (.error .scriptExhausted,
      List.replicate s.workspaceStatuses.length (.getWorkspaceStatus cr sn))

def callPollRun (cr sn : String) (s : Script) :
    Except PyErr RunState × List Event :=
  match pollRun s.runStates with
  | .success n st => (.ok st, List.replicate n (.getRunState cr sn))
  | .failure n => (.error (.runtimeError "Notebook could not be run"),
      List.replicate n (.getRunState cr sn))
  | .exhausted => (.error .scriptExhausted,
      List.replicate s.runStates.length (.getRunState cr sn))

/-- Returns `output["views"][0]["content"]` from `exportStationNotebookOutput`. -/
def callExport (cr sn : String) (s : Script) : Except PyErr String × List Event :=
  (match s.exportErr with
   | some e => .error e
   | none => .ok s.exportContent,
   [.exportOutput cr sn])

def callGetNotebookStatus (path : String) (s : Script) :
    Except PyErr String × List Event :=
  (match s.getStatusErr with
   | some e => .error e
   | none => .ok s.object_id,
   [.getNotebookStatus path])

/-- The import path `/Users/<user>/clean_room_output_<ISO timestamp>`. -/
def outPath (s : Script) : String :=
  "/Users/" ++ s.username ++ "/clean_room_output_" ++ s.nowIso

/-- Generation 1 `CleanRoomClient.prepareAndRunNotebook`: like generation 2
but with per-kind setup payloads (output tables at share setup, collaborator
and notebook name at notebook setup), raw (non-base64) import content, and a
`https://<host>/#notebook/<object_id>` link. -/
def prepareAndRunNotebook (cr sn notebook_collaborator notebook_name : String)
    (notebook_parameters output_table_parameters : List (String × String))
    (s : Script) : Except PyErr (RunState × String) × List Event :=
  seqE (checkedCall s.createStationErr (.createStation cr sn)) fun _ =>
  seqE (checkedCall s.metastoreErr (.setupResource cr sn metastoreBody)) fun _ =>
  seqE (checkedCall s.sharesErr (.setupResource cr sn
    (collaboratorSharesBody output_table_parameters))) fun _ =>
  seqE (checkedCall s.workspaceErr (.setupResource cr sn workspaceBody)) fun _ =>
  seqE (callPollWorkspace cr sn s) fun _ =>
  seqE (checkedCall s.nspErr (.setupResource cr sn
    notebookServicePrincipalBody)) fun _ =>
  seqE (checkedCall s.notebookErr (.setupResource cr sn
    (notebookBody notebook_collaborator notebook_name))) fun _ =>
  seqE (checkedCall s.runNotebookErr (.runNotebook cr sn notebook_parameters)) fun _ =>
  seqE (callPollRun cr sn s) fun st =>
  seqE (callExport cr sn s) fun content =>
  seqE (checkedCall s.importErr (.importNotebook (outPath s) content)) fun _ =>
  seqE (callGetNotebookStatus (outPath s) s) fun oid =>
  (.ok (st, "https://" ++ s.browserHostName ++ "/#notebook/" ++ oid), [])

end Gen1

namespace Gen1

/-- Shape of every successful generation-1 `prepareAndRunNotebook`
execution. -/
theorem prepare_ok_shape {cr sn nc nn : String} {np otp : List (String × String)}
    {s : Script} {st : RunState} {link : String} {tr : List Event}
    (h : prepareAndRunNotebook cr sn nc nn np otp s = (.ok (st, link), tr)) :
    ∃ a b : Nat,
      pollWorkspace s.workspaceStatuses = .success a ∧
      pollRun s.runStates = .success b st ∧
      1 ≤ a ∧ 1 ≤ b ∧
      link = "https://" ++ s.browserHostName ++ "/#notebook/" ++ s.object_id ∧
      tr = [Event.createStation cr sn,
            Event.setupResource cr sn metastoreBody,
            Event.setupResource cr sn (collaboratorSharesBody otp),
            Event.setupResource cr sn workspaceBody] ++
        List.replicate a (Event.getWorkspaceStatus cr sn) ++
        [Event.setupResource cr sn notebookServicePrincipalBody,
         Event.setupResource cr sn (notebookBody nc nn),
         Event.runNotebook cr sn np] ++
        List.replicate b (Event.getRunState cr sn) ++
        [Event.exportOutput cr sn,
         Event.importNotebook (outPath s) s.exportContent,
         Event.getNotebookStatus (outPath s)] := by
  unfold prepareAndRunNotebook at h
  obtain ⟨u1, t1, hok1, h, htr0⟩ := seqE_eq_ok h
  obtain ⟨u2, t2, hok2, h, htr1⟩ := seqE_eq_ok h
  obtain ⟨u3, t3, hok3, h, htr2⟩ := seqE_eq_ok h
  obtain ⟨u4, t4, hok4, h, htr3⟩ := seqE_eq_ok h
  obtain ⟨u5, t5, hok5, h, htr4⟩ := seqE_eq_ok h
  obtain ⟨u6, t6, hok6, h, htr5⟩ := seqE_eq_ok h
  obtain ⟨u7, t7, hok7, h, htr6⟩ := seqE_eq_ok h
  obtain ⟨u8, t8, hok8, h, htr7⟩ := seqE_eq_ok h
  obtain ⟨st0, t9, hok9, h, htr8⟩ := seqE_eq_ok h
  obtain ⟨content, t10, hok10, h, htr9⟩ := seqE_eq_ok h
  obtain ⟨u11, t11, hok11, h, htr10⟩ := seqE_eq_ok h
  obtain ⟨oid, t12, hok12, hfin, htr11⟩ := seqE_eq_ok h
  simp only [Prod.mk.injEq, Except.ok.injEq] at hfin
  obtain ⟨⟨hst, hlink⟩, ht12⟩ := hfin
  have hok5' : ∃ a, pollWorkspace s.workspaceStatuses = PollOut.success a := by
    cases hwp : pollWorkspace s.workspaceStatuses with
    | success n => exact ⟨n, rfl⟩
    | failure n =>
      rw [show (callPollWorkspace cr sn s).1 =
          Except.error (.runtimeError "Workspace could not be provisioned") from by
        simp [callPollWorkspace, hwp]] at hok5
      exact absurd hok5 (by simp)
    | exhausted =>
      rw [show (callPollWorkspace cr sn s).1 = Except.error PyErr.scriptExhausted from by
        simp [callPollWorkspace, hwp]] at hok5
      exact absurd hok5 (by simp)
  obtain ⟨a, hwp⟩ := hok5'
  have hok9' : ∃ b, pollRun s.runStates = RunPollOut.success b st0 := by
    cases hrp : pollRun s.runStates with
    | success n st1 =>
      have h1 : (callPollRun cr sn s).1 = Except.ok st1 := by
        simp [callPollRun, hrp]
      rw [h1] at hok9
      have hse : st1 = st0 := by simpa using hok9
      exact ⟨n, by rw [hse]⟩
    | failure n =>
      have h1 : (callPollRun cr sn s).1 =
          Except.error (.runtimeError "Notebook could not be run") := by
        simp [callPollRun, hrp]
      rw [h1] at hok9
      exact absurd hok9 (by simp)
    | exhausted =>
      have h1 : (callPollRun cr sn s).1 = Except.error PyErr.scriptExhausted := by
        simp [callPollRun, hrp]
      rw [h1] at hok9
      exact absurd hok9 (by simp)
  obtain ⟨b, hrp⟩ := hok9'
  cases hge : s.getStatusErr with
  | some e =>
    rw [show (callGetNotebookStatus (outPath s) s).1 = .error e from by
      simp [callGetNotebookStatus, hge]] at hok12
    exact absurd hok12 (by simp)
  | none =>
    have hoid : oid = s.object_id := by
      rw [show (callGetNotebookStatus (outPath s) s).1 = .ok s.object_id from by
        simp [callGetNotebookStatus, hge]] at hok12
      simpa using hok12.symm
    cases hex : s.exportErr with
    | some e =>
      rw [show (callExport cr sn s).1 = .error e from by
        simp [callExport, hex]] at hok10
      exact absurd hok10 (by simp)
    | none =>
      have hcontent : content = s.exportContent := by
        rw [show (callExport cr sn s).1 = .ok s.exportContent from by
          simp [callExport, hex]] at hok10
        simpa using hok10.symm
      subst hoid hcontent
      have hrp' : pollRun s.runStates = RunPollOut.success b st := by
        rw [hst] at hrp
        exact hrp
      refine ⟨a, b, hwp, hrp', pollWorkspace_success_pos hwp,
        pollRun_success_pos hrp', hlink.symm, ?_⟩
      subst htr0 htr1 htr2 htr3 htr4 htr5 htr6 htr7 htr8 htr9 htr10 htr11
      rw [← ht12]
      have hcw : (callPollWorkspace cr sn s).2 =
          List.replicate a (Event.getWorkspaceStatus cr sn) := by
        simp [callPollWorkspace, hwp]
      have hcr : (callPollRun cr sn s).2 =
          List.replicate b (Event.getRunState cr sn) := by
        simp [callPollRun, hrp]
      simp [callExport, callGetNotebookStatus, checkedCall, hcw, hcr]

end Gen1

/-- The main run-phase path always emits the `station_created` handoff write
first, immediately followed by the `createStation` call. -/
theorem runPhaseMain_trace (cr sn nc nn : String)
    (np otp : List (String × String)) (s : Script) :
    ∃ rest, (Gen2.runPhaseMain cr sn nc nn np otp s).2 =
      Event.setTaskValue "station_created" :: Event.createStation cr sn :: rest := by
  obtain ⟨rest0, hrest0⟩ := Gen2.helper_trace_head cr sn nc nn np otp s
  rcases hh : Gen2.prepareAndRunNotebookHelper cr sn nc nn np otp s with ⟨res0, tr0⟩
  rw [hh] at hrest0
  simp only [] at hrest0
  cases res0 with
  | error e =>
    refine ⟨rest0, ?_⟩
    simp [Gen2.runPhaseMain, seqE, hh, hrest0]
  | ok v =>
    refine ⟨rest0 ++ [Event.setTaskValue "notebook_url",
      Event.setTaskValue "notebook_run_state", Event.displayHTML], ?_⟩
    by_cases hres : v.1.result_state ≠ "SUCCESS"
    · simp [Gen2.runPhaseMain, seqE, hh, hrest0, hres]
    · simp [Gen2.runPhaseMain, seqE, hh, hrest0, hres]

/-- C4: (run phase, generation 2) in every execution, either no event is
emitted at all (a pre-check failed before the flag write and before any
platform call), or the very first event is the `station_created := true`
handoff write, immediately followed by the first platform call,
`createStation`; (teardown phase, both generations) when the persisted
`station_created` flag is false, the teardown phase emits no event — in
particular no teardown-resource or delete-station call. -/
theorem C4_station_created_guard :
    (∀ (cr sn nc nn np_raw otp_raw : String) (loads : String → Json) (s : Script)
       (res : Except PyErr Unit) (tr : List Event),
      Gen2.prepareAndRunNotebook cr sn nc nn np_raw otp_raw loads s = (res, tr) →
      tr = [] ∨ ∃ rest, tr = Event.setTaskValue "station_created" ::
        Event.createStation cr sn :: rest) ∧
    (∀ (cr sn : String) (ts : Gen2.TeardownScript),
      (Gen2.teardownStation false cr sn ts).2 = []) ∧
    (∀ (cr sn : String) (ts : Gen1.TeardownScript),
      (Gen1.teardownGuard false cr sn ts).2 = []) := by
  refine ⟨?_, fun _ _ _ => rfl, fun _ _ _ => rfl⟩
  intro cr sn nc nn np_raw otp_raw loads s res tr h
  unfold Gen2.prepareAndRunNotebook at h
  cases hpc : Gen2.preChecks cr sn np_raw otp_raw loads with
  | error e =>
    rw [hpc] at h
    left
    have h2 := congrArg Prod.snd h
    exact h2.symm
  | ok p =>
    obtain ⟨np, otp⟩ := p
    rw [hpc] at h
    right
    obtain ⟨rest, hrest⟩ := runPhaseMain_trace cr sn nc nn np otp s
    have h2 := congrArg Prod.snd h
    exact ⟨rest, h2.symm.trans hrest⟩

/-- Witness for C4 on a concrete all-success execution (run phase) and
concrete false flags (teardown phases). -/
theorem C4_witness :
    (([Event.setTaskValue "station_created",
       Event.createStation "cr" "sn",
       Event.setupResource "cr" "sn" (Gen2.resourceBody .METASTORE),
       Event.setupResource "cr" "sn" (Gen2.resourceBody .COLLABORATOR_SHARES),
       Event.setupResource "cr" "sn" (Gen2.resourceBody .WORKSPACE),
       Event.getWorkspaceStatus "cr" "sn",
       Event.setupResource "cr" "sn" (Gen2.resourceBody .NOTEBOOK_SERVICE_PRINCIPAL),
       Event.setupResource "cr" "sn" (Gen2.resourceBody .NOTEBOOK),
       Event.runNotebook "cr" "sn" [],
       Event.getRunState "cr" "sn",
       Event.exportOutput "cr" "sn",
       Event.importNotebook "/Users/u/clean_room_output_t" "c",
       Event.getNotebookStatus "/Users/u/clean_room_output_t",
       Event.setTaskValue "notebook_url",
       Event.setTaskValue "notebook_run_state",
       Event.displayHTML] : List Event) = [] ∨
     ∃ rest, ([Event.setTaskValue "station_created",
       Event.createStation "cr" "sn",
       Event.setupResource "cr" "sn" (Gen2.resourceBody .METASTORE),
       Event.setupResource "cr" "sn" (Gen2.resourceBody .COLLABORATOR_SHARES),
       Event.setupResource "cr" "sn" (Gen2.resourceBody .WORKSPACE),
       Event.getWorkspaceStatus "cr" "sn",
       Event.setupResource "cr" "sn" (Gen2.resourceBody .NOTEBOOK_SERVICE_PRINCIPAL),
       Event.setupResource "cr" "sn" (Gen2.resourceBody .NOTEBOOK),
       Event.runNotebook "cr" "sn" [],
       Event.getRunState "cr" "sn",
       Event.exportOutput "cr" "sn",
       Event.importNotebook "/Users/u/clean_room_output_t" "c",
       Event.getNotebookStatus "/Users/u/clean_room_output_t",
       Event.setTaskValue "notebook_url",
       Event.setTaskValue "notebook_run_state",
       Event.displayHTML] : List Event) =
       Event.setTaskValue "station_created" ::
         Event.createStation "cr" "sn" :: rest) ∧
    (Gen2.teardownStation false "cr" "sn" ⟨fun _ => none, none, "", none⟩).2 = [] ∧
    (Gen1.teardownGuard false "cr" "sn"
      ⟨none, none, none, none, none, "", none⟩).2 = [] :=
  ⟨C4_station_created_guard.1 "cr" "sn" "alice" "nb" "" "" (fun _ => Json.jnull)
      scriptOk (.ok ()) _ rfl,
   C4_station_created_guard.2.1 "cr" "sn" ⟨fun _ => none, none, "", none⟩,
   C4_station_created_guard.2.2 "cr" "sn" ⟨none, none, none, none, none, "", none⟩⟩

/-- C10: every invocation of the generation-1 `teardownStation` raises before
any HTTP request is issued: the callers pass `TeardownResource.X.value` (an
`int`) into `teardownStationResource`, whose log line evaluates
`resource.value` on that `int`, so the very first resource-teardown step
raises `AttributeError` and the trace is empty — no teardown-resource or
delete-station request is ever sent. -/
theorem C10_gen1_teardown_raises :
    ∀ (cr sn : String) (ts : Gen1.TeardownScript),
      Gen1.teardownStation cr sn ts =
        (.error (.attributeError "int object has no attribute value"), []) :=
  fun _ _ _ => rfl

/-- C8 counterexample: in a generation-2 execution with collaborator
`"alice"` and notebook name `"mynb"`, the notebook resource setup call posts
the constant `{"resource": {"resource_type": "NOTEBOOK"}}` payload, which
mentions neither the collaborator nor the notebook name — the claim that the
call passes both to the platform fails. -/
theorem C8_counterexample :
    (Gen2.prepareAndRunNotebookHelper "cr" "sn" "alice" "mynb" [] [] scriptOk).2 =
      [Event.createStation "cr" "sn",
       Event.setupResource "cr" "sn" (Gen2.resourceBody .METASTORE),
       Event.setupResource "cr" "sn" (Gen2.resourceBody .COLLABORATOR_SHARES),
       Event.setupResource "cr" "sn" (Gen2.resourceBody .WORKSPACE),
       Event.getWorkspaceStatus "cr" "sn",
       Event.setupResource "cr" "sn" (Gen2.resourceBody .NOTEBOOK_SERVICE_PRINCIPAL),
       Event.setupResource "cr" "sn" (Gen2.resourceBody .NOTEBOOK),
       Event.runNotebook "cr" "sn" [],
       Event.getRunState "cr" "sn",
       Event.exportOutput "cr" "sn",
       Event.importNotebook "/Users/u/clean_room_output_t" "c",
       Event.getNotebookStatus "/Users/u/clean_room_output_t"] ∧
    jsonMentionsB "alice" (Gen2.resourceBody .NOTEBOOK) = false ∧
    jsonMentionsB "mynb" (Gen2.resourceBody .NOTEBOOK) = false :=
  ⟨rfl, by decide, by decide⟩

/-- C8 amended: in generation 1, the notebook setup call — issued after the
service-principal setup — posts
`{"notebook": {"notebook_collaborator": ..., "notebook_name": ...}}`, a
payload mentioning both the collaborator identity and the notebook name; in
generation 2 the notebook setup call posts the constant
`{"resource": {"resource_type": "NOTEBOOK"}}` payload, independent of
collaborator and notebook name. -/
theorem C8_notebook_setup_payload :
    (∀ (cr sn nc nn : String) (np otp : List (String × String)) (s : Gen1.Script)
       (st : RunState) (link : String) (tr : List Event),
      Gen1.prepareAndRunNotebook cr sn nc nn np otp s = (.ok (st, link), tr) →
      (∃ pre post, tr = pre ++
        [Event.setupResource cr sn (Gen1.notebookBody nc nn)] ++ post) ∧
      jsonMentionsB nc (Gen1.notebookBody nc nn) = true ∧
      jsonMentionsB nn (Gen1.notebookBody nc nn) = true) ∧
    (∀ (cr sn nc nn : String) (np otp : List (String × String)) (s : Script)
       (st : RunState) (link : String) (tr : List Event),
      Gen2.prepareAndRunNotebookHelper cr sn nc nn np otp s = (.ok (st, link), tr) →
      ∃ pre post, tr = pre ++
        [Event.setupResource cr sn (Gen2.resourceBody .NOTEBOOK)] ++ post) := by
  constructor
  · intro cr sn nc nn np otp s st link tr h
    obtain ⟨a, b, _, _, _, _, _, htr⟩ := Gen1.prepare_ok_shape h
    refine ⟨⟨[Event.createStation cr sn,
        Event.setupResource cr sn Gen1.metastoreBody,
        Event.setupResource cr sn (Gen1.collaboratorSharesBody otp),
        Event.setupResource cr sn Gen1.workspaceBody] ++
        List.replicate a (Event.getWorkspaceStatus cr sn) ++
        [Event.setupResource cr sn Gen1.notebookServicePrincipalBody],
      [Event.runNotebook cr sn np] ++
        List.replicate b (Event.getRunState cr sn) ++
        [Event.exportOutput cr sn,
         Event.importNotebook (Gen1.outPath s) s.exportContent,
         Event.getNotebookStatus (Gen1.outPath s)], ?_⟩, ?_, ?_⟩
    · rw [htr]
      simp
    · exact List.any_eq_true.mpr ⟨nc,
        by simp [Gen1.notebookBody, jsonStrings, jsonStringsObj],
        strContainsB_self nc⟩
    · exact List.any_eq_true.mpr ⟨nn,
        by simp [Gen1.notebookBody, jsonStrings, jsonStringsObj],
        strContainsB_self nn⟩
  · intro cr sn nc nn np otp s st link tr h
    obtain ⟨a, b, _, _, _, _, _, htr⟩ := Gen2.helper_ok_shape h
    refine ⟨[Event.createStation cr sn,
        Event.setupResource cr sn (Gen2.resourceBody .METASTORE),
        Event.setupResource cr sn (Gen2.resourceBody .COLLABORATOR_SHARES),
        Event.setupResource cr sn (Gen2.resourceBody .WORKSPACE)] ++
        List.replicate a (Event.getWorkspaceStatus cr sn) ++
        [Event.setupResource cr sn (Gen2.resourceBody .NOTEBOOK_SERVICE_PRINCIPAL)],
      [Event.runNotebook cr sn np] ++
        List.replicate b (Event.getRunState cr sn) ++
        [Event.exportOutput cr sn,
         Event.importNotebook (Gen2.outPath s) (s.b64encode s.notebook_contents),
         Event.getNotebookStatus (Gen2.outPath s)], ?_⟩
    rw [htr]
    simp

/-- An all-success generation-1 script. -/
def script1Ok : Gen1.Script :=
  ⟨none, none, none, none, none, none, ["RUNNING"], none,
   [⟨"TERMINATED", "SUCCESS"⟩], none, "c", none, none, "42", "u", "t", "host"⟩

/-- Witness for the amended C8 theorem on a concrete generation-1 run. -/
theorem C8_witness :
    (∃ pre post,
      ([Event.createStation "cr" "sn",
        Event.setupResource "cr" "sn" Gen1.metastoreBody,
        Event.setupResource "cr" "sn" (Gen1.collaboratorSharesBody []),
        Event.setupResource "cr" "sn" Gen1.workspaceBody,
        Event.getWorkspaceStatus "cr" "sn",
        Event.setupResource "cr" "sn" Gen1.notebookServicePrincipalBody,
        Event.setupResource "cr" "sn" (Gen1.notebookBody "alice" "mynb"),
        Event.runNotebook "cr" "sn" [],
        Event.getRunState "cr" "sn",
        Event.exportOutput "cr" "sn",
        Event.importNotebook "/Users/u/clean_room_output_t" "c",
        Event.getNotebookStatus "/Users/u/clean_room_output_t"] : List Event) =
      pre ++ [Event.setupResource "cr" "sn" (Gen1.notebookBody "alice" "mynb")]
        ++ post) ∧
    jsonMentionsB "alice" (Gen1.notebookBody "alice" "mynb") = true ∧
    jsonMentionsB "mynb" (Gen1.notebookBody "alice" "mynb") = true :=
  C8_notebook_setup_payload.1 "cr" "sn" "alice" "mynb" [] [] script1Ok
    ⟨"TERMINATED", "SUCCESS"⟩ ("https://" ++ "host" ++ "/#notebook/" ++ "42") _ rfl
